import Mathlib

set_option maxRecDepth 8000
set_option maxHeartbeats 1000000

/-!
Shallow embedding of the QueryForge unified query builder
(`unified_query_builder/s1/query_builder.py`,
`unified_query_builder/cortex/query_builder.py`,
`unified_query_builder/cbc/schema_loader.py`), together with proofs about
the claims of the specification.  Strings are manipulated as lists of
characters; all inputs of interest are ASCII, where Python's `str.lower`,
`\w`, `\s` etc. agree with the ASCII definitions used here.
-/

/-- Python `str` whitespace / regex `\s` over ASCII. -/
def pyIsSpace (c : Char) : Bool :=
  c = ' ' || c = '\t' || c = '\n' || c = '\x0d' || c = '\x0c' || c = '\x0b'

/-- Python `str.lower` (ASCII). -/
def pyLower (s : String) : String := ⟨s.data.map Char.toLower⟩

/-- Python `str.upper` (ASCII). -/
def pyUpper (s : String) : String := ⟨s.data.map Char.toUpper⟩

def dropLeadingSpace : List Char → List Char
  | [] => []
  | c :: rest => if pyIsSpace c then dropLeadingSpace rest else c :: rest

def pyStripList (l : List Char) : List Char :=
  (dropLeadingSpace (dropLeadingSpace l).reverse).reverse

/-- Python `str.strip()`. -/
def pyStrip (s : String) : String := ⟨pyStripList s.data⟩

/-- Python `str.replace(pat, rep)`: leftmost, non-overlapping.  Fueled
structural recursion (each step consumes at least one character for a
non-empty pattern, so fuel `length + 1` never runs out). -/
def replaceFuel (pat rep : List Char) : Nat → List Char → List Char
  | 0, l => l
  | _ + 1, [] => []
  | fuel + 1, c :: rest =>
    match pat with
    | [] => c :: rest
    | p :: ps =>
      if (p :: ps).isPrefixOf (c :: rest) then
        rep ++ replaceFuel pat rep fuel (rest.drop ps.length)
      else
        c :: replaceFuel pat rep fuel rest

def replaceList (pat rep l : List Char) : List Char :=
  replaceFuel pat rep (l.length + 1) l

def pyReplace (s pat rep : String) : String :=
  ⟨replaceList pat.data rep.data s.data⟩

/-- Python `pat in text` for strings. -/
def containsSub (text pat : String) : Bool :=
  text.data.tails.any (fun t => pat.data.isPrefixOf t)

def strStartsWith (s p : String) : Bool := p.data.isPrefixOf s.data

def strEndsWith (s p : String) : Bool := p.data.reverse.isPrefixOf s.data.reverse

/-- Python `str(n)` for a nonnegative int. -/
def pyNatStr (n : Nat) : String := Nat.repr n

/-- Python `str(n)` for an int. -/
def pyIntStr (n : Int) : String :=
  if n < 0 then "-" ++ Nat.repr n.natAbs else Nat.repr n.natAbs

def digitsToNat (l : List Char) : Nat :=
  l.foldl (fun acc c => acc * 10 + (c.toNat - 48)) 0

/-- Python `int(s)` for a decimal string (no underscores), as an Option. -/
def pyParseInt (s : String) : Option Int :=
  match pyStripList s.data with
  | '-' :: rest =>
    if rest ≠ [] && rest.all Char.isDigit then some (-(digitsToNat rest : Int)) else none
  | '+' :: rest =>
    if rest ≠ [] && rest.all Char.isDigit then some (digitsToNat rest : Int) else none
  | l =>
    if l ≠ [] && l.all Char.isDigit then some (digitsToNat l : Int) else none

/-- Lexicographic order on code points, as Python string `<`. -/
def lexLtList : List Char → List Char → Bool
  | [], [] => false
  | [], _ :: _ => true
  | _ :: _, [] => false
  | a :: as, b :: bs =>
    if a.toNat < b.toNat then true
    else if b.toNat < a.toNat then false
    else lexLtList as bs

def strLt (a b : String) : Bool := lexLtList a.data b.data

def insSorted (x : String) : List String → List String
  | [] => [x]
  | y :: rest => if strLt x y then x :: y :: rest else y :: insSorted x rest

/-- Python `sorted` for strings (insertion sort; stable, ascending). -/
def sortStrings (l : List String) : List String := l.foldr insSorted []

/-- Python `set` iteration order is not relied on: used only before sorting. -/
def uniqueList (l : List String) : List String :=
  l.foldl (fun acc x => if x ∈ acc then acc else acc ++ [x]) []

/-- Values flowing through the Python code (`Any`).  Floats do not occur in
any schema or claim input and are not modelled. -/
inductive PyVal where
  | int (n : Int)
  | str (s : String)
  | bool (b : Bool)
  | none
  | list (vs : List PyVal)

/-- Python `repr` of a string (printable ASCII content only). -/
def pyReprStr (s : String) : String :=
  let hasSingle := s.data.any (· = '\'')
  let hasDouble := s.data.any (· = '"')
  let q : Char := if hasSingle && !hasDouble then '"' else '\''
  let body := s.data.flatMap (fun c =>
    if c = '\\' then ['\\', '\\'] else if c = q then ['\\', q] else [c])
  ⟨q :: body ++ [q]⟩

mutual

/-- Python `repr(v)`. -/
def pyReprVal : PyVal → String
  | .int n => pyIntStr n
  | .bool b => if b then "True" else "False"
  | .none => "None"
  | .str s => pyReprStr s
  | .list vs => "[" ++ String.intercalate ", " (pyReprValList vs) ++ "]"

def pyReprValList : List PyVal → List String
  | [] => []
  | v :: vs => pyReprVal v :: pyReprValList vs

end

/-- Python `str(v)`. -/
def pyStrVal : PyVal → String
  | .str s => s
  | v => pyReprVal v

/-! ### Regex scanning infrastructure

Each compiled regular expression of the source is embedded as a bespoke
matcher `Option Char → List Char → Option (Nat × α)`: given the previous
character (for `\b` word boundaries) and the remaining text, it returns the
number of characters consumed and the captured payload, reproducing Python's
leftmost-match, ordered-alternation, greedy-with-backtracking semantics of
the concrete pattern.  `finditer` drives a matcher over the text exactly as
`re.finditer`: try the position, on success continue after the match,
otherwise advance one character. -/

/-- Regex `\w` over ASCII (`[A-Za-z0-9_]`). -/
def isWordChar (c : Char) : Bool := c.isAlphanum || c = '_'

def wordOpt : Option Char → Bool
  | some c => isWordChar c
  | Option.none => false

/-- Regex `\b` between two (optional) adjacent characters. -/
def isBoundary (a b : Option Char) : Bool := wordOpt a != wordOpt b

def isHexChar (c : Char) : Bool :=
  c.isDigit || (97 ≤ c.toNat && c.toNat ≤ 102) || (65 ≤ c.toNat && c.toNat ≤ 70)

/-- Length of the maximal leading run satisfying `p`. -/
def runLen (p : Char → Bool) (l : List Char) : Nat := (l.takeWhile p).length

/-- Case-insensitive literal prefix test (`pat` given in lowercase). -/
def ciStarts (pat : String) (l : List Char) : Bool :=
  (l.take pat.data.length).map Char.toLower == pat.data

/-- `re.finditer` driver (fueled; every match consumes at least one
character, so fuel `length + 1` suffices).  Yields `(start, end, payload)`
spans in text-index coordinates. -/
def scanAux {α : Type} (m : Option Char → List Char → Option (Nat × α)) :
    Nat → Nat → Option Char → List Char → List (Nat × Nat × α)
  | 0, _, _, _ => []
  | _ + 1, _, _, [] => []
  | fuel + 1, idx, prev, c :: rest =>
    match m prev (c :: rest) with
    | some (len, a) =>
      if len = 0 then (idx, idx, a) :: scanAux m fuel (idx + 1) (some c) rest
      else
        (idx, idx + len, a) ::
          scanAux m fuel (idx + len) ((c :: rest).take len).getLast?
            ((c :: rest).drop len)
    | Option.none => scanAux m fuel (idx + 1) (some c) rest

def finditer {α : Type} (m : Option Char → List Char → Option (Nat × α))
    (s : String) : List (Nat × Nat × α) :=
  scanAux m (s.data.length + 1) 0 Option.none s.data

def finditerVals {α : Type} (m : Option Char → List Char → Option (Nat × α))
    (s : String) : List α :=
  (finditer m s).map (·.2.2)

/-- `\b[a-f0-9]{n}\b` (IGNORECASE): used with n = 32 / 40 / 64 for the
hash patterns of both dialects. -/
def matchHexLen (n : Nat) (prev : Option Char) (l : List Char) :
    Option (Nat × String) :=
  if isBoundary prev l.head? && runLen isHexChar l = n &&
      !wordOpt (l.drop n).head? then
    some (n, ⟨l.take n⟩)
  else
    Option.none

/-- One `\d{1,3}` octet followed by a literal dot (an over-long digit run
can never backtrack into a match, see `(?:\d{1,3}\.){3}` semantics). -/
def parseOctetDot (l : List Char) : Option (Nat × List Char) :=
  let r := runLen Char.isDigit l
  if 1 ≤ r && r ≤ 3 && (l.drop r).head? = some '.' then
    some (r + 1, l.drop (r + 1))
  else
    Option.none

/-- `_IPV4_RE = \b(?:\d{1,3}\.){3}\d{1,3}\b`. -/
def matchIPv4 (prev : Option Char) (l : List Char) : Option (Nat × String) :=
  if !isBoundary prev l.head? then Option.none
  else
    match parseOctetDot l with
    | Option.none => Option.none
    | some (n1, l1) =>
      match parseOctetDot l1 with
      | Option.none => Option.none
      | some (n2, l2) =>
        match parseOctetDot l2 with
        | Option.none => Option.none
        | some (n3, l3) =>
          let r := runLen Char.isDigit l3
          if 1 ≤ r && r ≤ 3 && !wordOpt (l3.drop r).head? then
            some (n1 + n2 + n3 + r, ⟨l.take (n1 + n2 + n3 + r)⟩)
          else
            Option.none

/-- Number of leading IPv6 groups `[0-9a-f]{0,4}:` (deterministic per
group), capped at `limit`; returns the cumulative consumed lengths. -/
def ipv6Units : Nat → List Char → List Nat
  | 0, _ => []
  | limit + 1, l =>
    let r := runLen isHexChar l
    if r ≤ 4 && (l.drop r).head? = some ':' then
      (r + 1) :: (ipv6Units limit (l.drop (r + 1))).map (· + (r + 1))
    else
      []

/-- Try the repetition counts from `n` down to 2, with the greedy
`[0-9a-f]{0,4}` tail and its single viable backtrack to the empty tail. -/
def ipv6Try (l : List Char) (units : List Nat) : Nat → Option Nat
  | 0 => Option.none
  | n + 1 =>
    if n + 1 < 2 then Option.none
    else
      match units.get? n with
      | Option.none => ipv6Try l units n
      | some c =>
        let t := l.drop c
        let r := runLen isHexChar t
        if r ≤ 4 && isBoundary (l.take (c + r)).getLast? (l.drop (c + r)).head? then
          some (c + r)
        else if isBoundary (l.take c).getLast? t.head? then
          some c
        else
          ipv6Try l units n

/-- `_IPV6_RE = \b(?:[0-9a-f]{0,4}:){2,7}[0-9a-f]{0,4}\b` (IGNORECASE). -/
def matchIPv6 (prev : Option Char) (l : List Char) : Option (Nat × String) :=
  if !isBoundary prev l.head? then Option.none
  else
    let units := ipv6Units 7 l
    match ipv6Try l units units.length with
    | some len => if len = 0 then Option.none else some (len, ⟨l.take len⟩)
    | Option.none => Option.none

/-- `_PORT_RE = \bport\s*(?:=|is|:)?\s*(\d{1,5})\b` (IGNORECASE). -/
def matchPort (prev : Option Char) (l : List Char) : Option (Nat × String) :=
  if !(isBoundary prev l.head? && ciStarts "port" l) then Option.none
  else
    let l1 := l.drop 4
    let w1 := runLen pyIsSpace l1
    let l2 := l1.drop w1
    let sep : Nat :=
      if l2.head? = some '=' then 1
      else if ciStarts "is" l2 then 2
      else if l2.head? = some ':' then 1
      else 0
    let l3 := l2.drop sep
    let w2 := runLen pyIsSpace l3
    let l4 := l3.drop w2
    let r := runLen Char.isDigit l4
    if 1 ≤ r && r ≤ 5 && !wordOpt (l4.drop r).head? then
      some (4 + w1 + sep + w2 + r, ⟨l4.take r⟩)
    else
      Option.none

/-- Character class of `_PROCESS_BINARY_RE`: `[a-zA-Z0-9_\\-]` (letters,
digits, underscore, backslash, hyphen). -/
def s1ProcChar (c : Char) : Bool :=
  c.isAlphanum || c = '_' || c = '\\' || c = '-'

def s1ProcExts : List String := ["exe", "dll", "bat", "cmd", "ps1", "vbs"]

def matchExtAfterDot (l2 : List Char) : List String → Option Nat
  | [] => Option.none
  | e :: rest =>
    if ciStarts e l2 && !wordOpt (l2.drop e.data.length).head? then
      some e.data.length
    else
      matchExtAfterDot l2 rest

/-- `_PROCESS_BINARY_RE =
`\b([a-zA-Z0-9_\\-]+\.(?:exe|dll|bat|cmd|ps1|vbs))\b` (IGNORECASE). -/
def matchProcessBinaryS1 (prev : Option Char) (l : List Char) :
    Option (Nat × String) :=
  if !isBoundary prev l.head? then Option.none
  else
    let r := runLen s1ProcChar l
    if r = 0 then Option.none
    else if (l.drop r).head? ≠ some '.' then Option.none
    else
      match matchExtAfterDot (l.drop (r + 1)) s1ProcExts with
      | some elen => some (r + 1 + elen, ⟨l.take (r + 1 + elen)⟩)
      | Option.none => Option.none

/-- Character class `[^\s'"]` of `_FILE_PATH_RE`. -/
def s1PathChar (c : Char) : Bool := !pyIsSpace c && c ≠ '\'' && c ≠ '"'

/-- `_FILE_PATH_RE = ([A-Za-z]:\\[^\s'"]+|/[^\s'"]+)`. -/
def matchFilePathS1 (_prev : Option Char) (l : List Char) :
    Option (Nat × String) :=
  match l with
  | a :: ':' :: '\\' :: rest =>
    if a.isAlpha then
      let r := runLen s1PathChar rest
      if r = 0 then Option.none else some (3 + r, ⟨l.take (3 + r)⟩)
    else
      Option.none
  | '/' :: rest =>
    let r := runLen s1PathChar rest
    if r = 0 then Option.none else some (1 + r, ⟨l.take (1 + r)⟩)
  | _ => Option.none

/-- Character class of `_DOMAIN_RE`'s capture: `[A-Za-z0-9_.-]`. -/
def domCapChar (c : Char) : Bool := c.isAlphanum || c = '_' || c = '.' || c = '-'

/-- Character class of `_USERNAME_RE`'s capture: `[A-Za-z0-9_.@-]`. -/
def userCapChar (c : Char) : Bool :=
  c.isAlphanum || c = '_' || c = '.' || c = '@' || c = '-'

/-- The `\s*['"]?([cls]+)['"]?` tail shared by the domain/username
patterns; returns consumed length and the capture.  Consuming an opening
quote is forced (the capture class excludes quotes), so no backtracking
into the optional quote is required. -/
def matchKwTail (cls : Char → Bool) (l2 : List Char) : Option (Nat × String) :=
  let w := runLen pyIsSpace l2
  let l3 := l2.drop w
  let q : Nat := if l3.head? = some '\'' || l3.head? = some '"' then 1 else 0
  let l4 := l3.drop q
  let r := runLen cls l4
  if r = 0 then Option.none
  else
    let l5 := l4.drop r
    let q2 : Nat := if l5.head? = some '\'' || l5.head? = some '"' then 1 else 0
    some (w + q + r + q2, ⟨l4.take r⟩)

/-- Ordered alternation over optional keyword prefixes (with the empty
alternative last), backtracking to the next alternative when the tail
fails, as the backtracking engine does. -/
def tryKws (cls : Char → Bool) (l2 : List Char) : List String → Option (Nat × String)
  | [] => matchKwTail cls l2
  | kw :: rest =>
    if ciStarts kw l2 then
      match matchKwTail cls (l2.drop kw.data.length) with
      | some (n, cap) => some (kw.data.length + n, cap)
      | Option.none => tryKws cls l2 rest
    else
      tryKws cls l2 rest

/-- `_DOMAIN_RE =
domain\s+(?:is|=|equals|like|contains)?\s*['"]?([A-Za-z0-9_.-]+)['"]?`
(IGNORECASE). -/
def matchDomain (_prev : Option Char) (l : List Char) : Option (Nat × String) :=
  if !ciStarts "domain" l then Option.none
  else
    let l1 := l.drop 6
    let w := runLen pyIsSpace l1
    if w = 0 then Option.none
    else
      match tryKws domCapChar (l1.drop w) ["is", "=", "equals", "like", "contains"] with
      | some (n, cap) => some (6 + w + n, cap)
      | Option.none => Option.none

/-- `_USERNAME_RE =
user(?:name)?\s+(?:is|=|equals|like)?\s*['"]?([A-Za-z0-9_.@-]+)['"]?`
(IGNORECASE).  The optional `name` is tried greedily first. -/
def matchUsername (_prev : Option Char) (l : List Char) : Option (Nat × String) :=
  if !ciStarts "user" l then Option.none
  else
    let l1 := l.drop 4
    let afterUser : List Char → Option (Nat × String) := fun lx =>
      let w := runLen pyIsSpace lx
      if w = 0 then Option.none
      else
        match tryKws userCapChar (lx.drop w) ["is", "=", "equals", "like"] with
        | some (n, cap) => some (w + n, cap)
        | Option.none => Option.none
    if ciStarts "name" l1 then
      match afterUser (l1.drop 4) with
      | some (n, cap) => some (4 + 4 + n, cap)
      | Option.none =>
        match afterUser l1 with
        | some (n, cap) => some (4 + n, cap)
        | Option.none => Option.none
    else
      match afterUser l1 with
      | some (n, cap) => some (4 + n, cap)
      | Option.none => Option.none

/-- Body of a quoted literal `[^Q\\]*(?:\\.[^Q\\]*)*Q` after the opening
quote `close`: returns the raw content (escapes kept) and the consumed
length including the closing quote.  A backslash must be followed by a
non-newline character (`.` does not match `\n`), else no match. -/
def quotedContent (close : Char) : List Char → Option (List Char × Nat)
  | [] => Option.none
  | c :: rest =>
    if c = close then some ([], 1)
    else if c = '\\' then
      match rest with
      | [] => Option.none
      | d :: rest2 =>
        if d = '\n' then Option.none
        else
          match quotedContent close rest2 with
          | some (cs, n) => some ('\\' :: d :: cs, n + 2)
          | Option.none => Option.none
    else
      match quotedContent close rest with
      | some (cs, n) => some (c :: cs, n + 1)
      | Option.none => Option.none

/-- `_QUOTED_RE`: a double-quoted or single-quoted literal with backslash
escapes; the payload is the raw content between the quotes. -/
def matchQuoted (_prev : Option Char) (l : List Char) : Option (Nat × String) :=
  match l with
  | '"' :: rest =>
    match quotedContent '"' rest with
    | some (cs, n) => some (1 + n, ⟨cs⟩)
    | Option.none => Option.none
  | '\'' :: rest =>
    match quotedContent '\'' rest with
    | some (cs, n) => some (1 + n, ⟨cs⟩)
    | Option.none => Option.none
  | _ => Option.none

/-- The cmdline flag fallback pattern: a dash-or-slash class, then
`([a-zA-Z][a-zA-Z0-9_]*)`; the payload is the whole match (`group(0)`,
dash or slash included). -/
def matchFlag (_prev : Option Char) (l : List Char) : Option (Nat × String) :=
  match l with
  | c :: d :: _ =>
    if (c = '-' || c = '/') && d.isAlpha then
      let r := runLen (fun x => x.isAlphanum || x = '_') (l.drop 2)
      some (2 + r, ⟨l.take (2 + r)⟩)
    else
      Option.none
  | _ => Option.none

/-- `_TIME_RANGE_RE =
(?:last|past)\s+(?:(\d+)\s+)?(minute|hour|day|week|month)s?` (IGNORECASE);
payload is `(quantity-or-"1", unit lowercased)`. -/
def matchTimeRange (_prev : Option Char) (l : List Char) :
    Option (Nat × (String × String)) :=
  let lead : Nat :=
    if ciStarts "last" l then 4 else if ciStarts "past" l then 4 else 0
  if lead = 0 then Option.none
  else
    let l1 := l.drop lead
    let w := runLen pyIsSpace l1
    if w = 0 then Option.none
    else
      let l2 := l1.drop w
      let d := runLen Char.isDigit l2
      let w2 := if d = 0 then 0 else runLen pyIsSpace (l2.drop d)
      -- the optional `(\d+)\s+` group needs trailing whitespace, else ε
      let (qty, used) : String × Nat :=
        if d ≠ 0 && w2 ≠ 0 then (⟨l2.take d⟩, d + w2) else ("1", 0)
      let l3 := l2.drop used
      let unitOf : List String → Option (Nat × String) := fun cands =>
        cands.findSome? (fun u =>
          if ciStarts u l3 then some (u.data.length, u) else Option.none)
      match unitOf ["minute", "hour", "day", "week", "month"] with
      | some (ulen, unit) =>
        let s : Nat :=
          if (l3.drop ulen).head?.map Char.toLower = some 's' then 1 else 0
        some (lead + w + used + ulen + s, (qty, unit))
      | Option.none => Option.none

/-! ### SentinelOne (S1QL) boolean-dialect builder
(`unified_query_builder/s1/query_builder.py`). -/

def DEFAULT_BOOLEAN_OPERATOR : String := "AND"

def S1_DEFAULT_DATASET : String := "processes"

def s1Stopwords : List String :=
  ["find", "show", "list", "display", "all", "events", "event", "process",
   "processes", "files", "file", "connections", "network", "where", "that",
   "with", "for", "and", "the", "a", "an", "from", "to"]

/-- `_DATASET_KEYWORDS` (insertion order of the source dict). -/
def s1DatasetKeywords : List (String × String) :=
  [("process", "processes"), ("processes", "processes"),
   ("executable", "processes"), ("file", "files"), ("files", "files"),
   ("dns", "dns"), ("network", "network_actions"),
   ("connection", "network_actions"), ("connections", "network_actions"),
   ("traffic", "network_actions"), ("url", "url"), ("http", "url"),
   ("login", "logins"), ("logon", "logins"), ("module", "modules"),
   ("driver", "driver"), ("registry", "registry"),
   ("scheduled task", "scheduled_tasks"), ("task", "scheduled_tasks"),
   ("indicator", "indicators"), ("script", "command_scripts"),
   ("cross process", "cross_process")]

def s1DatasetEventFilters : List (String × List String) :=
  [("processes", ["PROCESSCREATION"]),
   ("files", ["FILESCAN", "FILERENAME", "FILEDELETION", "FILECREATION",
              "FILEMODIFICATION", "MALICIOUSFILE"]),
   ("dns", ["DNS"]),
   ("url", ["HTTP"]),
   ("modules", ["MODULELOAD"]),
   ("registry", ["REGKEYCREATE", "REGKEYDELETE", "REGVALUEMODIFIED",
                 "REGVALUECREATE", "REGKEYRENAME", "REGVALUEDELETE",
                 "REGKEYEXPORT", "REGKEYSECURITYCHANGED", "REGKEYIMPORT"]),
   ("indicators", ["BEHAVIORALINDICATORS"])]

def s1HashFieldCandidates (label : String) : List String :=
  if label = "md5" then
    ["tgt.file.md5", "tgt.file.image.md5", "src.file.md5",
     "tgt.process.image.md5", "src.process.image.md5"]
  else if label = "sha1" then
    ["tgt.file.sha1", "src.file.sha1", "tgt.process.image.sha1",
     "src.process.image.sha1"]
  else
    ["tgt.file.sha256", "src.file.sha256", "tgt.process.image.sha256",
     "src.process.image.sha256"]

def s1IpFieldCandidates : List String :=
  ["dst.ip.address", "src.ip.address", "network.ip", "network.dns.resolvedIp"]

def s1DomainFieldCandidates : List String :=
  ["network.http.host", "dns.request.domain", "dns.response.domain",
   "url.address"]

def s1ProcessNameFields : List String :=
  ["tgt.process.displayName", "tgt.process.name", "src.process.displayName",
   "src.process.name", "osSrc.process.displayName", "osSrc.process.name"]

def s1CmdlineFields : List String :=
  ["tgt.process.cmdline", "src.process.cmdline", "osSrc.process.cmdline"]

def s1FileNameFields : List String :=
  ["tgt.file.name", "tgt.file.path", "src.file.name", "src.file.path"]

def s1UsernameFields : List String :=
  ["actor.user.name", "identity.user.username", "src.process.user",
   "tgt.process.user"]

def s1PortFields : List String := ["dst.port.number", "src.port.number"]

/-- Field metadata: only `data_type` is ever read (absent key ⇒ `""`). -/
structure S1FieldMeta where
  data_type : String := ""

/-- One dataset entry of the schema dict. -/
structure S1DatasetMeta where
  name : Option String := Option.none
  fields : List (String × S1FieldMeta) := []
  metadata : List (String × String) := []

/-- One documented operator (`name` + `symbols`); `name := Option.none`
models a non-string or absent name. -/
structure S1OpDef where
  name : Option String := Option.none
  symbols : List String := []

/-- The dict-shaped S1 schema snapshot: `datasets`, `common_fields`,
`operators["operators"]` and `operator_variants` (each variant's list of
`operator` strings). -/
structure S1Schema where
  datasets : List (String × S1DatasetMeta) := []
  common_fields : List (String × S1FieldMeta) := []
  operators : List S1OpDef := []
  operator_variants : List (String × List String) := []

/-- The distinct `ValueError`/`TypeError` raise sites of the S1 builder. -/
inductive S1Err where
  | badBooleanOperator        -- "boolean_operator must be 'AND' or 'OR'"
  | unsafeExpression          -- "Unsafe characters detected in expression"
  | badFilterType             -- "Filters must be either strings or dictionaries"
  | missingField              -- "Filter dictionaries must include a string 'field'"
  | unknownField (field : String)  -- "Field '…' is not present in the selected dataset"
  | badOperatorType           -- "Operator must be a non-empty string"
  | unknownOperator (op : String)  -- raised by `_normalize_operator`
  | missingValue              -- "Filter dictionaries must include a 'value'"
  | typeMismatch (field : String)  -- "Field '…' expects a numeric value"
  | insufficientInput         -- "Must provide either natural_language_intent, filters, or both"
  | noExpressions             -- "No valid expressions could be generated from the provided intent"
deriving DecidableEq

/-- Provenance metadata attached to each expression (the per-expression
dicts the source builds). -/
inductive ExprMeta where
  | user
  | filt (field : String) (operator : String) (value : PyVal)
  | extracted (ty : String) (value : String) (field : String)
  | port (value : Nat) (field : String)
  | processName (values : List String) (field : String)
  | eventFilter (dataset : String) (events : List String)

/-- A filter list item: raw string, structured dict, or anything else. -/
inductive S1Filter where
  | raw (s : String)
  | structured (field : Option PyVal) (operator : Option PyVal) (value : Option PyVal)
  | other

/-- `infer_dataset`. -/
def inferDataset (dataset : Option String) (intent : Option String)
    (schema : S1Schema) : Option String :=
  let datasets := schema.datasets
  if datasets.isEmpty then Option.none
  else
    let explicit : Option String :=
      match dataset with
      | some d =>
        if d ≠ "" then
          let key := pyReplace (pyLower (pyStrip d)) " " "_"
          if (datasets.find? (·.1 = key)).isSome then some key
          else
            (datasets.find? (fun p =>
              match p.2.name with
              | some n => pyLower n = pyLower d
              | Option.none => false)).map (·.1)
        else Option.none
      | Option.none => Option.none
    match explicit with
    | some k => some k
    | Option.none =>
      let fromIntent : Option String :=
        match intent with
        | some t =>
          if t ≠ "" then
            (s1DatasetKeywords.find? (fun p =>
              containsSub (pyLower t) p.1 &&
                (datasets.find? (·.1 = p.2)).isSome)).map (·.2)
          else Option.none
        | Option.none => Option.none
      match fromIntent with
      | some k => some k
      | Option.none =>
        if (datasets.find? (·.1 = S1_DEFAULT_DATASET)).isSome then
          some S1_DEFAULT_DATASET
        else (datasets.head?).map (·.1)

/-- `_collect_fields`: common fields updated by the dataset's fields
(`dict.update`: replace in place or append). -/
def insertKV {α : Type} : List (String × α) → String → α → List (String × α)
  | [], k, v => [(k, v)]
  | (k', v') :: rest, k, v =>
    if k' = k then (k, v) :: rest else (k', v') :: insertKV rest k v

def collectFields (schema : S1Schema) (dataset : Option String) :
    List (String × S1FieldMeta) :=
  let common := schema.common_fields
  match dataset with
  | Option.none => common
  | some key =>
    match (schema.datasets.find? (·.1 = key)).map (·.2) with
    | some meta => meta.fields.foldl (fun acc p => insertKV acc p.1 p.2) common
    | Option.none => common

/-- `_choose_field`: the first candidate present in the field map. -/
def chooseField (fields : List (String × S1FieldMeta)) (cands : List String) :
    Option String :=
  cands.find? (fun c => (fields.find? (·.1 = c)).isSome)

/-- `_build_operator_map` (dict insertion/overwrite semantics). -/
def buildOperatorMapStep (acc : List (String × String)) (op : S1OpDef) :
    List (String × String) :=
  match op.name with
  | Option.none => acc
  | some name =>
    let acc := op.symbols.foldl (fun a s => insertKV a (pyLower s) s) acc
    let canonical : Option String :=
      if op.symbols.contains "=" then some "="
      else op.symbols.head?
    match canonical with
    | some canon => if name ≠ "" then insertKV acc (pyLower name) canon else acc
    | Option.none => acc

def buildOperatorMap (schema : S1Schema) : List (String × String) :=
  let base := schema.operators.foldl buildOperatorMapStep []
  schema.operator_variants.foldl
    (fun acc p => p.2.foldl (fun a o => insertKV a (pyLower o) o) acc) base

def opMapGet (m : List (String × String)) (k : String) : Option String :=
  (m.find? (·.1 = k)).map (·.2)

/-- `_normalize_operator`. -/
def s1NormalizeOperator (operator : String) (operatorMap : List (String × String)) :
    Except S1Err String :=
  let normalized := opMapGet operatorMap (pyLower operator)
  let normalized :=
    match normalized with
    | some n => some n
    | Option.none =>
      if pyLower operator = "==" then opMapGet operatorMap "="
      else if pyLower operator = "contains ignorecase" ||
          pyLower operator = "containsignorecase" then
        opMapGet operatorMap "contains anycase"
      else Option.none
  match normalized with
  | some n => Except.ok n
  | Option.none => Except.error (.unknownOperator operator)

/-- `_quote`: double the backslashes, then escape single quotes, then wrap
in single quotes. -/
def s1Quote (value : String) : String :=
  let escaped := pyReplace value "\\" "\\\\"
  let escaped := pyReplace escaped "'" "\\'"
  "'" ++ escaped ++ "'"

/-- `_format_values` (note: a Python `bool` is an `int`, so it takes the
numeric branch and renders as `True`/`False` via `str`). -/
def s1FormatOneValue (dataType : String) (v : PyVal) : String :=
  match v with
  | .int n => pyIntStr n
  | .bool b => if b then "True" else "False"
  | v =>
    if dataType ≠ "" && (pyLower dataType = "numeric" || pyLower dataType = "integer") then
      match pyParseInt (pyStrVal v) with
      | some n => pyIntStr n
      | Option.none => s1Quote (pyStrVal v)
    else s1Quote (pyStrVal v)

def s1FormatValues (values : List PyVal) (dataType : String) : String :=
  String.intercalate ", " (values.map (s1FormatOneValue dataType))

/-- `_normalize_filter_string`: up-convert double-quoted literals to the
single-quote-with-escaping form.  The scan mirrors `re.sub` with the
double-quoted-literal pattern. -/
def normFilterFuel : Nat → List Char → List Char
  | 0, l => l
  | _ + 1, [] => []
  | fuel + 1, c :: rest =>
    if c = '"' then
      match quotedContent '"' rest with
      | some (cs, n) =>
        let content := replaceList ['\\', '"'] ['"'] cs
        let content := replaceList ['\\'] ['\\', '\\'] content
        let content := replaceList ['\''] ['\\', '\''] content
        '\'' :: content ++ ['\''] ++ normFilterFuel fuel (rest.drop n)
      | Option.none => c :: normFilterFuel fuel rest
    else
      c :: normFilterFuel fuel rest

def s1NormalizeFilterString (expression : String) : String :=
  ⟨normFilterFuel (expression.data.length + 1) expression.data⟩

/-- `_sanitise_expression`'s character test. -/
def s1HasUnsafeChars (expression : String) : Bool :=
  expression.data.any (fun c => c = ';' || c = '|' || c = '\n')

/-- `_sanitise_expression`. -/
def s1SanitiseExpression (expression : String) : Except S1Err String :=
  if s1HasUnsafeChars expression then Except.error .unsafeExpression
  else Except.ok expression

/-- `_build_filter_expression`.  Operator-normalization failure is caught
and the caller-supplied operator is used as-is (backwards compatibility),
exactly as the `try/except` of the source. -/
def buildFilterExpression (item : S1Filter)
    (fields : List (String × S1FieldMeta))
    (operatorMap : List (String × String)) : Except S1Err (String × ExprMeta) :=
  match item with
  | .raw s =>
    (s1SanitiseExpression (s1NormalizeFilterString (pyStrip s))).map
      (fun e => (e, .user))
  | .other => Except.error .badFilterType
  | .structured fieldV opV valueV =>
    match fieldV with
    | some (.str field) =>
      if (fields.find? (·.1 = field)).isNone then
        Except.error (.unknownField field)
      else
        match opV.getD (.str "=") with
        | .str op =>
          if op = "" then Except.error .badOperatorType
          else
            let operator :=
              match s1NormalizeOperator op operatorMap with
              | .ok o => o
              | .error _ => op
            let fieldMeta := ((fields.find? (·.1 = field)).map (·.2)).getD {}
            let dataType := pyLower fieldMeta.data_type
            match valueV.getD .none with
            | .list vs =>
              (s1SanitiseExpression
                  (field ++ " " ++ operator ++ " (" ++
                    s1FormatValues vs dataType ++ ")")).map
                (fun e => (e, .filt field operator (.list vs)))
            | .none => Except.error .missingValue
            | .int n =>
              (s1SanitiseExpression
                  (field ++ " " ++ operator ++ " " ++ pyIntStr n)).map
                (fun e => (e, .filt field operator (.int n)))
            | .bool b =>
              -- Python: `isinstance(value, (int, float))` is true for bool
              (s1SanitiseExpression
                  (field ++ " " ++ operator ++ " " ++
                    (if b then "True" else "False"))).map
                (fun e => (e, .filt field operator (.bool b)))
            | .str sv =>
              if dataType = "numeric" || dataType = "integer" then
                match pyParseInt sv with
                | some n =>
                  (s1SanitiseExpression
                      (field ++ " " ++ operator ++ " " ++ pyIntStr n)).map
                    (fun e => (e, .filt field operator (.str sv)))
                | Option.none => Except.error (.typeMismatch field)
              else
                (s1SanitiseExpression
                    (field ++ " " ++ operator ++ " " ++ s1Quote sv)).map
                  (fun e => (e, .filt field operator (.str sv)))
        | _ => Except.error .badOperatorType
    | _ => Except.error .missingField

/-- `_collect_hash_expressions` (sha256, then sha1, then md5 passes). -/
def collectHashExpressions (text : String)
    (fields : List (String × S1FieldMeta)) : List (String × ExprMeta) :=
  [("sha256", 64), ("sha1", 40), ("md5", 32)].flatMap (fun p =>
    (finditerVals (matchHexLen p.2) text).filterMap (fun value =>
      match chooseField fields (s1HashFieldCandidates p.1) with
      | some field =>
        some (field ++ " in:matchcase (" ++ s1Quote value ++ ")",
          .extracted p.1 value field)
      | Option.none => Option.none))

/-- `_collect_ip_expressions` (ipv4 pass, then ipv6 pass). -/
def collectIpExpressions (text : String)
    (fields : List (String × S1FieldMeta)) : List (String × ExprMeta) :=
  (finditerVals matchIPv4 text).filterMap (fun value =>
    match chooseField fields s1IpFieldCandidates with
    | some field =>
      some (field ++ " = " ++ s1Quote value, .extracted "ipv4" value field)
    | Option.none => Option.none) ++
  (finditerVals matchIPv6 text).filterMap (fun value =>
    match chooseField fields s1IpFieldCandidates with
    | some field =>
      some (field ++ " = " ++ s1Quote value, .extracted "ipv6" value field)
    | Option.none => Option.none)

/-- `_collect_domain_expressions`. -/
def collectDomainExpressions (text : String)
    (fields : List (String × S1FieldMeta)) : List (String × ExprMeta) :=
  (finditerVals matchDomain text).filterMap (fun value =>
    match chooseField fields s1DomainFieldCandidates with
    | some field =>
      some (field ++ " contains:anycase " ++ s1Quote value,
        .extracted "domain" value field)
    | Option.none => Option.none)

/-- `_collect_username_expressions`. -/
def collectUsernameExpressions (text : String)
    (fields : List (String × S1FieldMeta)) : List (String × ExprMeta) :=
  (finditerVals matchUsername text).filterMap (fun value =>
    match chooseField fields s1UsernameFields with
    | some field =>
      some (field ++ " in:anycase (" ++ s1Quote value ++ ")",
        .extracted "username" value field)
    | Option.none => Option.none)

/-- `_collect_process_expressions`: one membership expression over the
sorted set of lowercased matched binaries. -/
def collectProcessExpressions (text : String)
    (fields : List (String × S1FieldMeta)) : List (String × ExprMeta) :=
  match chooseField fields s1ProcessNameFields with
  | Option.none => []
  | some field =>
    let values := finditerVals matchProcessBinaryS1 text
    if values.isEmpty then []
    else
      let uniqueValues := sortStrings (uniqueList (values.map pyLower))
      let formatted := String.intercalate ", " (uniqueValues.map s1Quote)
      [(field ++ " in:anycase (" ++ formatted ++ ")",
        .processName uniqueValues field)]

/-- `_collect_path_expressions`. -/
def collectPathExpressions (text : String)
    (fields : List (String × S1FieldMeta)) : List (String × ExprMeta) :=
  match chooseField fields s1FileNameFields with
  | Option.none => []
  | some field =>
    (finditerVals matchFilePathS1 text).map (fun value =>
      (field ++ " contains:anycase " ++ s1Quote value,
        .extracted "path" value field))

/-- `_collect_cmdline_expressions`: quoted fragments, else flag-like
tokens when the literal token "cmdline" appears. -/
def collectCmdlineExpressions (text : String)
    (fields : List (String × S1FieldMeta)) : List (String × ExprMeta) :=
  match chooseField fields s1CmdlineFields with
  | Option.none => []
  | some field =>
    let quoted := (finditerVals matchQuoted text).filterMap (fun value =>
      if value = "" then Option.none
      else if s1Stopwords.contains (pyLower value) || value.length < 3 then
        Option.none
      else
        some (field ++ " contains:anycase " ++ s1Quote value,
          .extracted "cmdline" value field))
    if quoted.isEmpty && containsSub (pyLower text) "cmdline" then
      (finditerVals matchFlag text).filterMap (fun value =>
        if value.length > 2 then
          some (field ++ " contains:anycase " ++ s1Quote value,
            .extracted "cmdline" value field)
        else Option.none)
    else quoted

/-- `_collect_port_expressions` (`int(group)` ∈ (0, 65535]). -/
def collectPortExpressions (text : String)
    (fields : List (String × S1FieldMeta)) : List (String × ExprMeta) :=
  match chooseField fields s1PortFields with
  | Option.none => []
  | some field =>
    (finditerVals matchPort text).filterMap (fun digits =>
      let port := digitsToNat digits.data
      if 0 < port && port ≤ 65535 then
        some (field ++ " = " ++ pyNatStr port, .port port field)
      else Option.none)

/-- `_deduplicate`: drop expressions whose rendered string was already
seen (the Python `set` is modelled by a list consulted for membership). -/
def dedupAux : List (String × ExprMeta) → List String → List (String × ExprMeta)
  | [], _ => []
  | (e, m) :: rest, seen =>
    if e ∈ seen then dedupAux rest seen
    else (e, m) :: dedupAux rest (e :: seen)

def s1Deduplicate (expressions : List (String × ExprMeta)) :
    List (String × ExprMeta) :=
  dedupAux expressions []

/-- `_expressions_from_intent`. -/
def s1ExpressionsFromIntent (text : String)
    (fields : List (String × S1FieldMeta)) :
    List String × List ExprMeta :=
  let candidates :=
    (if containsSub (pyLower text) "port" then
      collectPortExpressions text fields
    else []) ++
    collectHashExpressions text fields ++
    collectIpExpressions text fields ++
    collectDomainExpressions text fields ++
    collectUsernameExpressions text fields ++
    collectProcessExpressions text fields ++
    collectPathExpressions text fields ++
    collectCmdlineExpressions text fields
  let deduped := s1Deduplicate candidates
  (deduped.map (·.1), deduped.map (·.2))

/-- The final combination step of `build_s1_query` (lines 692–700):
join with the boolean operator; parenthesize only for `OR` with more than
one expression; empty expression list yields the empty query. -/
def s1JoinExpressions (operator : String) (expressions : List String) : String :=
  String.intercalate (" " ++ operator ++ " ") expressions

def s1CombineQuery (operator : String) (expressions : List String) : String :=
  if expressions.isEmpty then ""
  else
    let combined := s1JoinExpressions operator expressions
    if operator = "OR" && expressions.length > 1 then "(" ++ combined ++ ")"
    else combined

/-- The metadata record returned next to the query string. -/
structure S1Metadata where
  dataset : Option String
  dataset_display_name : Option String
  boolean_operator : String
  inferred_conditions : List ExprMeta
  dataset_metadata : Option (List (String × String))

/-- Sequential filter processing: fail on the first bad filter, exactly as
the `for` loop of the source raises. -/
def buildAllFilters (fields : List (String × S1FieldMeta))
    (operatorMap : List (String × String)) :
    List S1Filter → Except S1Err (List (String × ExprMeta))
  | [] => Except.ok []
  | item :: rest =>
    match buildFilterExpression item fields operatorMap with
    | .error e => Except.error e
    | .ok pair =>
      match buildAllFilters fields operatorMap rest with
      | .error e => Except.error e
      | .ok pairs => Except.ok (pair :: pairs)

def s1HasValidIntent (intent : Option String) : Bool :=
  match intent with
  | some t => pyStrip t ≠ ""
  | Option.none => false

def s1HasExplicitDataset (dataset : Option String) : Bool :=
  match dataset with
  | some d => pyStrip d ≠ ""
  | Option.none => false

/-- `inferred_from_intent`: some dataset keyword occurs in the lowered
intent and maps to the resolved dataset key. -/
def s1InferredFromIntent (intent : Option String) (datasetKey : Option String) :
    Bool :=
  match intent, datasetKey with
  | some t, some k =>
    t ≠ "" &&
      s1DatasetKeywords.any (fun p => containsSub (pyLower t) p.1 && p.2 = k)
  | _, _ => false

def s1DatasetHasEventFilters (datasetKey : Option String) : Bool :=
  match datasetKey with
  | some k => (s1DatasetEventFilters.find? (·.1 = k)).isSome
  | Option.none => false

/-- `build_s1_query`. -/
def buildS1Query (schema : S1Schema) (dataset : Option String)
    (filters : Option (List S1Filter)) (intent : Option String)
    (booleanOperator : String) : Except S1Err (String × S1Metadata) :=
  let operator := pyUpper (pyStrip booleanOperator)
  if !(operator = "AND" || operator = "OR") then
    Except.error .badBooleanOperator
  else
    let datasetKey := inferDataset dataset intent schema
    let fields := collectFields schema datasetKey
    let operatorMap := buildOperatorMap schema
    let filterList := filters.getD []
    match buildAllFilters fields operatorMap filterList with
    | .error e => Except.error e
    | .ok pairs =>
      let nl : List String × List ExprMeta :=
        match intent with
        | some t => if t ≠ "" then s1ExpressionsFromIntent t fields else ([], [])
        | Option.none => ([], [])
      let expressions := pairs.map (·.1) ++ nl.1
      let details := pairs.map (·.2) ++ nl.2
      let hasValidFilters := !filterList.isEmpty
      let hasExtracted := !expressions.isEmpty
      if !hasValidFilters && !s1HasValidIntent intent then
        Except.error .insufficientInput
      else if s1HasValidIntent intent && !hasExtracted && !hasValidFilters &&
          !(s1HasExplicitDataset dataset || s1InferredFromIntent intent datasetKey ||
            s1DatasetHasEventFilters datasetKey) then
        Except.error .noExpressions
      else
        let withEvents : List String × List ExprMeta :=
          match datasetKey with
          | some k =>
            if k ≠ "" then
              match (s1DatasetEventFilters.find? (·.1 = k)).map (·.2) with
              | some eventTypes =>
                if eventTypes.isEmpty then (expressions, details)
                else
                  let eventFilter := "meta.event.name in (" ++
                    String.intercalate ", " (eventTypes.map s1Quote) ++ ")"
                  (eventFilter :: expressions,
                    .eventFilter k eventTypes :: details)
              | Option.none => (expressions, details)
            else (expressions, details)
          | Option.none => (expressions, details)
      let query := s1CombineQuery operator withEvents.1
      let displayName : Option String :=
        match datasetKey with
        | some k => ((schema.datasets.find? (·.1 = k)).map (·.2)).bind (·.name)
        | Option.none => Option.none
      let datasetMetadata : Option (List (String × String)) :=
        match datasetKey with
        | some k =>
          if k ≠ "" then
            let meta : S1DatasetMeta :=
              ((schema.datasets.find? (·.1 = k)).map (·.2)).getD {}
            some meta.metadata
          else Option.none
        | Option.none => Option.none
      Except.ok (query,
        { dataset := datasetKey
          dataset_display_name := displayName
          boolean_operator := operator
          inferred_conditions := withEvents.2
          dataset_metadata := datasetMetadata })

/-! ### Carbon Black Cloud search-type resolver
(`unified_query_builder/cbc/schema_loader.py`, `normalise_search_type`). -/

inductive CbcErr where
  | noSearchTypes
  | unknownSearchType (name : String) (valid : List String)
deriving DecidableEq

/-- The alias table of `normalise_search_type`. -/
def cbcCandidates : List (String × String) :=
  [("process", "process_search"), ("process_search", "process_search"),
   ("binary", "binary_search"), ("binary_search", "binary_search"),
   ("alert", "alert_search"), ("alert_search", "alert_search"),
   ("alerts", "alert_search"), ("threat", "threat_report_search"),
   ("threat_report", "threat_report_search"),
   ("threat_report_search", "threat_report_search"),
   ("report", "threat_report_search")]

/-- `normalise_search_type`. -/
def normaliseSearchType (name : Option String) (available : List String) :
    Except CbcErr (String × List String) :=
  match name with
  | Option.none =>
    match available with
    | d :: _ => Except.ok (d, ["defaulted_to:" ++ d])
    | [] => Except.error .noSearchTypes
  | some n =>
    if n = "" then
      match available with
      | d :: _ => Except.ok (d, ["defaulted_to:" ++ d])
      | [] => Except.error .noSearchTypes
    else
    let cleaned := pyReplace (pyLower (pyStrip n)) " " "_"
    let resolved := ((cbcCandidates.find? (·.1 = cleaned)).map (·.2)).getD cleaned
    if resolved ∈ available then
      Except.ok (resolved,
        if resolved ≠ n then ["normalised_from:" ++ n ++ "->" ++ resolved] else [])
    else
      match available.find? (fun c => strStartsWith c resolved) with
      | some candidate => Except.ok (candidate, ["prefix_matched:" ++ candidate])
      | Option.none => Except.error (.unknownSearchType n available)

/-! ### Cortex XDR (XQL) pipeline-dialect builder
(`unified_query_builder/cortex/query_builder.py`). -/

def CORTEX_DEFAULT_DATASET : String := "xdr_data"

def CORTEX_DEFAULT_LIMIT : Int := 100

def CORTEX_MAX_LIMIT : Int := 10000

def cortexKnownProcessAliases : List (String × String) :=
  [("powershell", "powershell.exe"), ("cmd", "cmd.exe"),
   ("command prompt", "cmd.exe"), ("wmic", "wmic.exe"),
   ("mshta", "mshta.exe"), ("cscript", "cscript.exe"),
   ("wscript", "wscript.exe")]

def cortexHostKeywords : List String :=
  ["host", "hostname", "agent", "endpoint", "machine", "server"]

/-- `_HOST_PHRASE_RE =
(?:host|hostname|server|agent)\s+(?:named\s+)?['"]?([A-Za-z0-9_.-]{2,})['"]?`
(IGNORECASE), with the greedy `named` branch backtracking to its absence. -/
def hostCapTail (lz : List Char) : Option (Nat × String) :=
  let q : Nat := if lz.head? = some '\'' || lz.head? = some '"' then 1 else 0
  let l4 := lz.drop q
  let r := runLen domCapChar l4
  if r < 2 then Option.none
  else
    let l5 := l4.drop r
    let q2 : Nat := if l5.head? = some '\'' || l5.head? = some '"' then 1 else 0
    some (q + r + q2, ⟨l4.take r⟩)

def hostAfterKw (lx : List Char) : Option (Nat × String) :=
  let w := runLen pyIsSpace lx
  if w = 0 then Option.none
  else
    let l2 := lx.drop w
    let withNamed : Option (Nat × String) :=
      if ciStarts "named" l2 then
        let w2 := runLen pyIsSpace (l2.drop 5)
        if w2 = 0 then Option.none
        else
          (hostCapTail (l2.drop (5 + w2))).map (fun p => (5 + w2 + p.1, p.2))
      else Option.none
    match withNamed with
    | some (n, cap) => some (w + n, cap)
    | Option.none =>
      match hostCapTail l2 with
      | some (n, cap) => some (w + n, cap)
      | Option.none => Option.none

def hostKwList : List String := ["host", "hostname", "server", "agent"]

def matchHostAux (l : List Char) : List String → Option (Nat × String)
  | [] => Option.none
  | kw :: rest =>
    if ciStarts kw l then
      match hostAfterKw (l.drop kw.data.length) with
      | some (n, cap) => some (kw.data.length + n, cap)
      | Option.none => matchHostAux l rest
    else matchHostAux l rest

def matchHost (_prev : Option Char) (l : List Char) : Option (Nat × String) :=
  matchHostAux l hostKwList

/-- Character class of the cortex `_PROCESS_RE`: `[A-Za-z0-9_\-]`. -/
def cortexProcChar (c : Char) : Bool := c.isAlphanum || c = '_' || c = '-'

/-- Cortex `_PROCESS_RE = \b([A-Za-z0-9_\-]+\.exe)\b` (IGNORECASE). -/
def matchProcessCortex (prev : Option Char) (l : List Char) :
    Option (Nat × String) :=
  if !isBoundary prev l.head? then Option.none
  else
    let r := runLen cortexProcChar l
    if r = 0 then Option.none
    else if (l.drop r).head? ≠ some '.' then Option.none
    else if ciStarts "exe" (l.drop (r + 1)) &&
        !wordOpt (l.drop (r + 4)).head? then
      some (r + 4, ⟨l.take (r + 4)⟩)
    else Option.none

/-- Character class `[^\\/:\n]` of the cortex `_FILE_PATH_RE`. -/
def cortexPathChar (c : Char) : Bool :=
  c ≠ '\\' && c ≠ '/' && c ≠ ':' && c ≠ '\n'

/-- Segments `[^\\/:\n]+\\\\` (a run then two literal backslashes);
returns the consumed length of each segment, greedily. -/
def cortexSegs : Nat → List Char → List Nat
  | 0, _ => []
  | fuel + 1, l =>
    let r := runLen cortexPathChar l
    if r ≥ 1 && (l.drop r).head? = some '\\' &&
        (l.drop (r + 1)).head? = some '\\' then
      (r + 2) :: cortexSegs fuel (l.drop (r + 2))
    else []

/-- Body `(?:[^\\/:\n]+\\\\)*[^\\/:\n]+` after a drive/UNC opener: greedy
segments with the single viable backtrack (drop the final two backslashes
of the last segment when no final run follows). -/
def cortexBodyA (l : List Char) : Option Nat :=
  let segs := cortexSegs (l.length + 1) l
  let consumed := segs.foldl (· + ·) 0
  let r := runLen cortexPathChar (l.drop consumed)
  if r ≥ 1 then some (consumed + r)
  else if segs.isEmpty then Option.none
  else some (consumed - 2)

/-- Opening alternatives `(?:[A-Za-z]:\\\\?|\\\\)\\?` in greedy order:
the consumed lengths to try. -/
def cortexOpeners (l : List Char) : List Nat :=
  match l with
  | a :: ':' :: '\\' :: rest =>
    if a.isAlpha then
      match rest with
      | '\\' :: '\\' :: _ => [5, 4, 3]
      | '\\' :: _ => [4, 3]
      | _ => [3]
    else []
  | '\\' :: '\\' :: rest =>
    match rest with
    | '\\' :: _ => [3, 2]
    | _ => [2]
  | _ => []

def cortexTryA (l : List Char) : List Nat → Option Nat
  | [] => Option.none
  | pre :: rest =>
    match cortexBodyA (l.drop pre) with
    | some body => some (pre + body)
    | Option.none => cortexTryA l rest

/-- Segment class `[^/\s]` of the POSIX alternative. -/
def cortexSlashChar (c : Char) : Bool := c ≠ '/' && !pyIsSpace c

def cortexSegsB : Nat → List Char → List Nat
  | 0, _ => []
  | fuel + 1, l =>
    let r := runLen cortexSlashChar l
    if r ≥ 1 && (l.drop r).head? = some '/' then
      (r + 1) :: cortexSegsB fuel (l.drop (r + 1))
    else []

/-- Cortex `_FILE_PATH_RE` (drive/UNC alternative first, then the POSIX
`/(?:[^/\s]+/)*[^/\s]+` alternative). -/
def matchFilePathCortex (_prev : Option Char) (l : List Char) :
    Option (Nat × String) :=
  match cortexTryA l (cortexOpeners l) with
  | some n => some (n, ⟨l.take n⟩)
  | Option.none =>
    match l with
    | '/' :: rest =>
      let segs := cortexSegsB (rest.length + 1) rest
      let consumed := segs.foldl (· + ·) 0
      let r := runLen cortexSlashChar (rest.drop consumed)
      if r ≥ 1 then some (1 + consumed + r, ⟨l.take (1 + consumed + r)⟩)
      else if segs.isEmpty then Option.none
      else some (consumed, ⟨l.take consumed⟩)
    | _ => Option.none

/-- `_format_literal`. -/
def cortexFormatLiteral (value : String) : String :=
  if strStartsWith value "'" && strEndsWith value "'" then value
  else "'" ++ pyReplace value "'" "\\'" ++ "'"

/-- `_format_value`.  Note that a Python `bool` is an instance of `int`,
so the leading `isinstance(value, (int, float))` branch catches booleans
and renders them through `str` as `True`/`False`; the dedicated
`isinstance(value, bool)` branch below it is unreachable. -/
def cortexFormatValue : PyVal → String
  | .int n => pyIntStr n
  | .bool b => if b then "True" else "False"
  | .none => "null"
  | .str s =>
    let trimmed := pyStrip s
    if trimmed = "" then "''"
    else if strStartsWith trimmed "ENUM." then trimmed
    else if strStartsWith trimmed "interval " then trimmed
    else if containsSub trimmed "(" || strEndsWith trimmed "()" ||
        containsSub trimmed "current_time()" then trimmed
    else if (trimmed.data.head? = some '\'' || trimmed.data.head? = some '"') &&
        trimmed.data.getLast? = trimmed.data.head? then
      if trimmed.data.head? = some '"' then
        let inner : String := ⟨(trimmed.data.drop 1).dropLast⟩
        "'" ++ pyReplace inner "'" "\\'" ++ "'"
      else trimmed
    else cortexFormatLiteral trimmed
  | .list vs => cortexFormatLiteral (pyStrVal (.list vs))

/-- `_format_filter`. -/
def cortexFormatFilter (field : String) (operator : String) (value : PyVal) :
    String :=
  let op := pyStrip operator
  match value with
  | .list vs =>
    if pyLower op = "in" then
      field ++ " in (" ++
        String.intercalate ", " (vs.map cortexFormatValue) ++ ")"
    else field ++ " " ++ op ++ " " ++ cortexFormatValue (.list vs)
  | v => field ++ " " ++ op ++ " " ++ cortexFormatValue v

/-- Cortex field metadata: only `default_field` is consulted. -/
structure CortexFieldMeta where
  default_field : Bool := false

/-- `_field_if_available`. -/
def cortexFieldIfAvailable (cands : List String)
    (fieldMap : List (String × CortexFieldMeta)) : Option String :=
  cands.find? (fun c => (fieldMap.find? (·.1 = c)).isSome)

/-- Metadata entries collected in `recognised`. -/
inductive CortexMeta where
  | structured (field : String) (operator : String) (value : PyVal)
  | extracted (ty : String) (field : String) (value : String)
  | processKeyword (field : String) (value : List String)
  | eventType (field : String) (value : String)
  | timeRange (value : String)
  | timeRangeDict (field : String) (operator : String) (value : PyVal)

/-- `_extract_time_filters`. -/
def cortexExtractTimeFilters (intent : String) :
    List String × List (Nat × Nat) × List CortexMeta :=
  let ms := finditer matchTimeRange intent
  (ms.map (fun m =>
      "_time > current_time() - interval '" ++ m.2.2.1 ++ " " ++ m.2.2.2 ++ "'"),
   ms.map (fun m => (m.1, m.2.1)),
   ms.map (fun m => .timeRange ("last " ++ m.2.2.1 ++ " " ++ m.2.2.2)))

/-- `_extract_natural_language_filters`: the hash/ip pattern passes, then
process names, file paths and hostname phrases, in source order. -/
def cortexExtractNL (intent : String)
    (fieldMap : List (String × CortexFieldMeta)) :
    List String × List (Nat × Nat) × List CortexMeta :=
  let hashes :=
    ((finditer (matchHexLen 32) intent).filterMap (fun t =>
      (cortexFieldIfAvailable ["action_file_md5", "action_process_image_md5"]
        fieldMap).map (fun f => (t, "md5", f)))) ++
    ((finditer (matchHexLen 64) intent).filterMap (fun t =>
      (cortexFieldIfAvailable ["action_file_sha256", "action_process_image_sha256"]
        fieldMap).map (fun f => (t, "sha256", f)))) ++
    ((finditer matchIPv4 intent).filterMap (fun t =>
      (cortexFieldIfAvailable ["action_local_ip", "action_remote_ip", "src_ip", "dst_ip"]
        fieldMap).map (fun f => (t, "ipv4", f))))
  let hashPart := hashes.map (fun (t, label, field) =>
    (cortexFormatFilter field "=" (.str t.2.2), (t.1, t.2.1),
      CortexMeta.extracted label field t.2.2))
  let procPart := (finditer matchProcessCortex intent).filterMap (fun t =>
    (cortexFieldIfAvailable ["actor_process_image_name", "action_file_name"]
      fieldMap).map (fun field =>
        (cortexFormatFilter field "=" (.str (pyLower t.2.2)), (t.1, t.2.1),
          CortexMeta.extracted "process_name" field (pyLower t.2.2))))
  let pathPart := (finditer matchFilePathCortex intent).filterMap (fun t =>
    (cortexFieldIfAvailable ["action_file_path", "actor_process_image_path"]
      fieldMap).map (fun field =>
        (cortexFormatFilter field "=" (.str t.2.2), (t.1, t.2.1),
          CortexMeta.extracted "file_path" field t.2.2)))
  let hostPart := (finditer matchHost intent).filterMap (fun t =>
    (cortexFieldIfAvailable
      ["agent_hostname", "dest_agent_hostname", "src_agent_hostname"]
      fieldMap).map (fun field =>
        (cortexFormatFilter field "contains" (.str (pyLower t.2.2)), (t.1, t.2.1),
          CortexMeta.extracted "hostname" field t.2.2)))
  let all := hashPart ++ procPart ++ pathPart ++ hostPart
  (all.map (·.1), all.map (·.2.1), all.map (·.2.2))

/-- Collapse `\s+` runs to a single space (`re.sub(r"\s+", " ", ·)`). -/
def collapseWsFuel : Nat → List Char → List Char
  | 0, l => l
  | _ + 1, [] => []
  | fuel + 1, c :: rest =>
    if pyIsSpace c then
      ' ' :: collapseWsFuel fuel (rest.dropWhile pyIsSpace)
    else
      c :: collapseWsFuel fuel rest

/-- `re.split(r"[;,]", ·)` (keeps empty tokens, later skipped). -/
def splitSemiComma : Nat → List Char → List (List Char)
  | 0, l => [l]
  | _ + 1, [] => [[]]
  | fuel + 1, c :: rest =>
    if c = ';' || c = ',' then [] :: splitSemiComma fuel rest
    else
      match splitSemiComma fuel rest with
      | t :: ts => (c :: t) :: ts
      | [] => [[c]]

/-- `re.findall(r"[A-Za-z0-9_.-]+", ·)`. -/
def classRunsFuel (cls : Char → Bool) : Nat → List Char → List String
  | 0, _ => []
  | _ + 1, [] => []
  | fuel + 1, c :: rest =>
    if cls c then
      let r := runLen cls (c :: rest)
      ⟨(c :: rest).take r⟩ :: classRunsFuel cls fuel ((c :: rest).drop r)
    else classRunsFuel cls fuel rest

/-- `_extract_keywords`: blank out all claimed spans, collapse whitespace,
split on `;`/`,`, drop host keywords, collect identifier-like runs. -/
def cortexExtractKeywords (intent : String) (spans : List (Nat × Nat)) :
    List String :=
  if intent = "" then []
  else
    let chars := (List.range intent.data.length).zip intent.data |>.map
      (fun p => if spans.any (fun sp => sp.1 ≤ p.1 && p.1 < sp.2) then ' ' else p.2)
    let residual := pyStripList (collapseWsFuel (chars.length + 1) chars)
    if residual = [] then []
    else
      (splitSemiComma (residual.length + 1) residual).flatMap (fun token =>
        let token := pyStripList token
        if token = [] then []
        else if cortexHostKeywords.contains (pyLower ⟨token⟩) then []
        else classRunsFuel domCapChar (token.length + 1) token)

/-- `_resolve_process_aliases`. -/
def cortexResolveProcessAliases (keywords : List String) : List String :=
  keywords.filterMap (fun keyword =>
    let lowered := pyLower keyword
    match (cortexKnownProcessAliases.find? (·.1 = lowered)).map (·.2) with
    | some aliasName => some aliasName
    | Option.none =>
      if strEndsWith lowered ".exe" then some lowered else Option.none)

/-- Cortex field-group metadata. -/
structure CortexGroupMeta where
  key_fields : Option (List String) := Option.none
  fields : Option (List String) := Option.none

/-- `_derive_default_fields`. -/
def cortexPreferredGroups : List String :=
  ["system_fields", "event_fields", "actor_fields", "action_fields",
   "agent_fields", "auth_fields", "dst_fields"]

def cortexAppendField (fieldMap : List (String × CortexFieldMeta))
    (acc : List String) (name : String) : List String :=
  if (fieldMap.find? (·.1 = name)).isSome && name ∉ acc then acc ++ [name]
  else acc

def deriveDefaultFields (fieldGroups : List (String × CortexGroupMeta))
    (fieldMap : List (String × CortexFieldMeta)) : List String :=
  if fieldGroups.isEmpty || fieldMap.isEmpty then []
  else
    let fromGroups := cortexPreferredGroups.foldl (fun acc group =>
      match (fieldGroups.find? (·.1 = group)).map (·.2) with
      | Option.none => acc
      | some meta =>
        let raw : Option (List String) :=
          match meta.key_fields with
          | some ks => if ks.isEmpty then meta.fields else some ks
          | Option.none => meta.fields
        match raw with
        | some entries => entries.foldl (cortexAppendField fieldMap) acc
        | Option.none => acc) []
    let results :=
      if fromGroups.isEmpty then
        fieldMap.foldl (fun acc p =>
          if p.2.default_field then cortexAppendField fieldMap acc p.1 else acc) []
      else fromGroups
    let results :=
      if results.isEmpty then
        ["_time", "agent_hostname", "actor_process_image_name",
         "action_process_image_name"].foldl (cortexAppendField fieldMap) []
      else results
    results.take 6

/-- Modelled from the spec: `CortexSchemaCache.DATASET_FIELD_MAP` lives in
the cortex `schema_loader` module, which is not part of the sources; §3
and §6 describe the schema as datasets keyed to their field tables, and
the builder's default dataset is `xdr_data`, so the map carries the
default dataset's key to its field-table name. -/
def DATASET_FIELD_MAP : List (String × String) :=
  [("xdr_data", "xdr_data_fields")]

inductive CortexErr where
  | unknownDataset (name : String) (valid : List String)
deriving DecidableEq

/-- Modelled from the spec: `normalise_dataset` lives in the cortex
`schema_loader` module, which is not part of the sources.  §4.1:
lowercase/trim/space-to-underscore the request, look it up among the
known keys (no dialect-specific alias table is documented for this
dialect), else longest-prefix fallback, else fail enumerating the valid
keys. -/
def normaliseDataset (name : String) (available : List String) :
    Except CortexErr (String × List String) :=
  let cleaned := pyReplace (pyLower (pyStrip name)) " " "_"
  if cleaned ∈ available then
    Except.ok (cleaned,
      if cleaned ≠ name then ["normalised_from:" ++ name ++ "->" ++ cleaned] else [])
  else
    match available.find? (fun c => strStartsWith c cleaned) with
    | some candidate => Except.ok (candidate, ["prefix_matched:" ++ candidate])
    | Option.none => Except.error (.unknownDataset name available)

/-- One `datasets` entry of the cortex schema payload. -/
structure CortexDatasetMeta where
  default_fields : Option (List String) := Option.none

/-- The dict-shaped cortex schema payload (the non-`CortexSchemaCache`
branch of `build_cortex_query`): `datasets`, the per-dataset field tables
(looked up through `DATASET_FIELD_MAP`), and `field_groups`. -/
structure CortexSchema where
  datasets : List (String × CortexDatasetMeta) := []
  fieldTables : List (String × List (String × CortexFieldMeta)) := []
  field_groups : List (String × CortexGroupMeta) := []

/-- A structured filter item (non-dict entries are skipped by the
source's `isinstance` guards). -/
inductive CortexFilterItem where
  | dict (field : Option PyVal) (operator : Option PyVal) (value : Option PyVal)
  | other

/-- The `time_range` argument: a raw expression string or a dict. -/
inductive CortexTimeRange where
  | str (s : String)
  | dict (field : Option String) (operator : Option String) (value : Option PyVal)

structure CortexMetadata where
  dataset : String
  normalisation : List String
  recognised : List CortexMeta
  limit : Int
  fields : Option (List String)

/-- `build_cortex_query` (plain-dict schema branch; the
`CortexSchemaCache` branch differs only in how the same tables are
fetched).  The pre-normalisation field-map/metadata computations of the
source are dead stores (recomputed for the chosen dataset) and are not
repeated here. -/
def buildCortexQuery (schema : CortexSchema)
    (dataset : String := CORTEX_DEFAULT_DATASET)
    (filters : Option (List CortexFilterItem) := Option.none)
    (fieldsArg : Option (List String) := Option.none)
    (intent : Option String := Option.none)
    (timeRange : Option CortexTimeRange := Option.none)
    (limit : Option Int := Option.none) :
    Except CortexErr (String × CortexMetadata) :=
  let availableNames := DATASET_FIELD_MAP.foldl
    (fun acc p => if p.1 ∈ acc then acc else acc ++ [p.1])
    (schema.datasets.map (·.1))
  match normaliseDataset dataset availableNames with
  | .error e => Except.error e
  | .ok (chosenDataset, normalisationLog) =>
    let fieldMap : List (String × CortexFieldMeta) :=
      match (DATASET_FIELD_MAP.find? (·.1 = chosenDataset)).map (·.2) with
      | some mappedKey =>
        ((schema.fieldTables.find? (·.1 = mappedKey)).map (·.2)).getD []
      | Option.none => []
    let datasetMeta : Option CortexDatasetMeta :=
      (schema.datasets.find? (·.1 = chosenDataset)).map (·.2)
    let fieldGroups := schema.field_groups
    let structuredFilters := filters.getD []
    let filterStages : List (String × CortexMeta) :=
      structuredFilters.filterMap (fun item =>
        match item with
        | .other => Option.none
        | .dict fieldV opV valueV =>
          let fieldOk : Option String :=
            match fieldV with
            | some (.str f) => if f = "" then Option.none else some f
            | _ => Option.none
          match fieldOk with
          | Option.none => Option.none
          | some field =>
            let operator := match opV with
              | some (.str o) => o
              | _ => "="
            let value := (valueV.getD .none)
            some (cortexFormatFilter field operator value,
              .structured field operator value))
    let nlStages : List (String × CortexMeta) :=
      match intent with
      | some t =>
        if t ≠ "" then
          let (nlFilters, spans, meta) := cortexExtractNL t
            fieldMap
          let base := nlFilters.zip meta
          let keywordCandidates := cortexExtractKeywords t spans
          let processNames := cortexResolveProcessAliases keywordCandidates
          let procStage : List (String × CortexMeta) :=
            if !processNames.isEmpty then
              match cortexFieldIfAvailable
                  ["actor_process_image_name", "action_file_name"] fieldMap with
              | some field =>
                [(cortexFormatFilter field "in"
                    (.list ((sortStrings (uniqueList processNames)).map .str)),
                  .processKeyword field processNames)]
              | Option.none => []
            else []
          let eventStage : List (String × CortexMeta) :=
            if containsSub (pyLower t) "process" ||
                containsSub (pyLower t) "execution" then
              match cortexFieldIfAvailable ["event_type"] fieldMap with
              | some field =>
                [(cortexFormatFilter field "=" (.str "ENUM.PROCESS"),
                  .eventType field "ENUM.PROCESS")]
              | Option.none => []
            else []
          let (timeFilters, _, timeMeta) := cortexExtractTimeFilters t
          base ++ procStage ++ eventStage ++ timeFilters.zip timeMeta
        else []
      | Option.none => []
    let timeStages : List (String × CortexMeta) :=
      match timeRange with
      | some (.str s) => [(s, .timeRange s)]
      | some (.dict fieldV opV valueV) =>
        let field := fieldV.getD "_time"
        let operator := opV.getD ">"
        let value := valueV.getD (.str "current_time() - interval '1 hour'")
        [(cortexFormatFilter field operator value,
          .timeRangeDict field operator value)]
      | Option.none => []
    let allFilterStages := filterStages ++ nlStages ++ timeStages
    let defaultStage : List String × List String :=
      let fromMeta : Option (List String) :=
        match datasetMeta with
        | some meta =>
          match meta.default_fields with
          | some raw =>
            if raw.isEmpty then Option.none
            else some ((raw.filter (· ≠ "")).map pyStrip)
          | Option.none => Option.none
        | Option.none => Option.none
      let defaultFields : List String :=
        match fromMeta with
        | some fs => fs
        | Option.none =>
          if !fieldGroups.isEmpty then deriveDefaultFields fieldGroups fieldMap
          else []
      let formatted := defaultFields.filter (· ≠ "")
      if !formatted.isEmpty then
        (["| fields " ++ String.intercalate ", " formatted], formatted)
      else ([], [])
    let fieldsStage : List String × List String :=
      match fieldsArg with
      | some fs =>
        -- Python `if fields:` – an empty list is falsy and falls back
        if fs.isEmpty then defaultStage
        else
          let cleaned := (fs.filter (· ≠ "")).map pyStrip
          if !cleaned.isEmpty then
            (["| fields " ++ String.intercalate ", " cleaned], cleaned)
          else ([], [])
      | Option.none => defaultStage
    let effectiveLimit : Int :=
      match limit with
      | Option.none => CORTEX_DEFAULT_LIMIT
      | some l => min (max l 1) CORTEX_MAX_LIMIT
    let stages :=
      ["dataset = " ++ chosenDataset] ++
      allFilterStages.map (fun p => "| filter " ++ p.1) ++
      fieldsStage.1 ++
      ["| limit " ++ pyIntStr effectiveLimit]
    Except.ok (String.intercalate "\n" stages,
      { dataset := chosenDataset
        normalisation := normalisationLog
        recognised := allFilterStages.map (·.2)
        limit := effectiveLimit
        fields := if fieldsStage.2.isEmpty then Option.none
          else some fieldsStage.2 })

/-! ### Specification-side definitions

Used to state refinement claims: these follow the wording of the spec and
are compared with the definitions embedded from the source. -/

/-- Per-character escaping as the spec words it for the boolean dialect:
every literal backslash is doubled, and a single quote is escaped —
backslash doubling applied before (hence never to) the quote's escape. -/
def specEscChar (c : Char) : List Char :=
  if c = '\\' then ['\\', '\\']
  else if c = '\'' then ['\\', '\'']
  else [c]

def s1QuoteSpec (s : String) : String :=
  ⟨'\'' :: (s.data.flatMap specEscChar ++ ['\''])⟩

/-- Deduplication as the spec words it: keep the first occurrence of each
rendered string, dropping every later pair with an already-kept key. -/
def keepFirsts : List (String × ExprMeta) → List (String × ExprMeta)
  | [] => []
  | p :: rest => p :: keepFirsts (rest.filter (fun q => q.1 != p.1))
termination_by l => l.length
decreasing_by
  simp only [List.length_cons]
  exact Nat.lt_succ_of_le (List.length_filter_le _ _)

/-! ### Concrete inputs for the claims -/

/-- The end-to-end scenario schema of C1: dataset `processes`, resolved
field map containing `dst.port.number` and `tgt.process.displayName`. -/
def schemaC1 : S1Schema :=
  { datasets := [("processes", {})],
    common_fields := [("dst.port.number", {}), ("tgt.process.displayName", {})] }

/-- A schema with no datasets and one string field `f` (C2, C10). -/
def schemaOneField : S1Schema := { common_fields := [("f", {})] }

/-- An empty schema (C8). -/
def schemaEmptyS1 : S1Schema := {}

/-- A schema whose only dataset is the default `processes` (C3, C5). -/
def schemaProcessesOnly : S1Schema := { datasets := [("processes", {})] }

/-- An empty cortex schema payload (C7). -/
def cortexSchemaC7 : CortexSchema := {}

/-- A cortex field map containing the md5 candidate field (C4). -/
def cortexMd5FieldMap : List (String × CortexFieldMeta) :=
  [("action_file_md5", {})]

/-- The same md5 digest twice, separated by a space (C4). -/
def twiceMd5Text : String :=
  "aaaaaaaaaaaaaaaaaaaaaaaaaaaaaaaa aaaaaaaaaaaaaaaaaaaaaaaaaaaaaaaa"

/-- The claim-side insufficient-input condition for the boolean dialect,
amended with the event-filter escape hatch the code actually checks. -/
def s1InsufficientCond (schema : S1Schema) (dataset : Option String)
    (filters : Option (List S1Filter)) (intent : Option String) : Prop :=
  let filterList := filters.getD []
  let datasetKey := inferDataset dataset intent schema
  let fields := collectFields schema datasetKey
  (filterList = [] ∧ s1HasValidIntent intent = false) ∨
  (s1HasValidIntent intent = true ∧ filterList = [] ∧
    (match intent with
     | some t => (s1ExpressionsFromIntent t fields).1 = []
     | Option.none => True) ∧
    s1HasExplicitDataset dataset = false ∧
    s1InferredFromIntent intent datasetKey = false ∧
    s1DatasetHasEventFilters datasetKey = false)

/-! ### Helper lemmas -/

theorem replaceFuel_single (p : Char) (rep : List Char) :
    ∀ (l : List Char) (fuel : Nat), l.length < fuel →
      replaceFuel [p] rep fuel l =
        l.flatMap (fun c => if c = p then rep else [c])
  | [], fuel + 1, _ => by simp [replaceFuel]
  | c :: rest, fuel + 1, h => by
    have hrest : rest.length < fuel := by
      simpa using Nat.lt_of_succ_lt_succ h
    by_cases hc : c = p
    · simp [replaceFuel, List.isPrefixOf, hc,
        replaceFuel_single p rep rest fuel hrest]
    · have : (p == c) = false := by
        simp [beq_iff_eq]; exact fun he => hc he.symm
      simp [replaceFuel, List.isPrefixOf, this, hc,
        replaceFuel_single p rep rest fuel hrest]

theorem replaceList_single (p : Char) (rep : List Char) (l : List Char) :
    replaceList [p] rep l = l.flatMap (fun c => if c = p then rep else [c]) :=
  replaceFuel_single p rep l (l.length + 1) (Nat.lt_succ_self _)

theorem quote_data (l : List Char) :
    replaceList ['\''] ['\\', '\''] (replaceList ['\\'] ['\\', '\\'] l) =
      l.flatMap specEscChar := by
  rw [replaceList_single, replaceList_single]
  induction l with
  | nil => rfl
  | cons c rest ih =>
    by_cases h1 : c = '\\'
    · subst h1; simp [specEscChar, ih]
    · by_cases h2 : c = '\''
      · subst h2; simp [specEscChar, ih]
      · simp [specEscChar, h1, h2, ih]

theorem s1Quote_eq_spec (s : String) : s1Quote s = s1QuoteSpec s := by
  calc s1Quote s
      = ⟨'\'' ::
          (replaceList ['\''] ['\\', '\'']
            (replaceList ['\\'] ['\\', '\\'] s.data) ++ ['\''])⟩ := rfl
    _ = ⟨'\'' :: (s.data.flatMap specEscChar ++ ['\''])⟩ := by rw [quote_data]
    _ = s1QuoteSpec s := rfl

theorem dedupAux_eq_keepFirsts :
    ∀ (l : List (String × ExprMeta)) (seen : List String),
      dedupAux l seen = keepFirsts (l.filter (fun q => decide (q.1 ∉ seen)))
  | [], seen => by simp [dedupAux, keepFirsts]
  | (e, m) :: rest, seen => by
    by_cases he : e ∈ seen
    · simp only [dedupAux, if_pos he, List.filter_cons]
      rw [dedupAux_eq_keepFirsts rest seen]
      simp [he]
    · simp only [dedupAux, if_neg he, List.filter_cons]
      rw [dedupAux_eq_keepFirsts rest (e :: seen)]
      have hd : decide (e ∉ seen) = true := by simp [he]
      simp only [hd, if_pos]
      rw [keepFirsts]
      congr 1
      rw [List.filter_filter]
      congr 1
      apply List.filter_congr
      intro q _
      by_cases hq : q.1 = e <;> by_cases hs : q.1 ∈ seen <;>
        simp [hq, hs, List.mem_cons]

theorem dedupAux_keys_nodup :
    ∀ (l : List (String × ExprMeta)) (seen : List String),
      ((dedupAux l seen).map Prod.fst).Nodup ∧
        ∀ k ∈ (dedupAux l seen).map Prod.fst, k ∉ seen
  | [], _ => ⟨List.nodup_nil, by simp [dedupAux]⟩
  | (e, m) :: rest, seen => by
    by_cases he : e ∈ seen
    · simpa [dedupAux, he] using dedupAux_keys_nodup rest seen
    · have ih := dedupAux_keys_nodup rest (e :: seen)
      simp only [dedupAux, if_neg he, List.map_cons]
      refine ⟨List.nodup_cons.mpr ⟨fun hmem => ?_, ih.1⟩, ?_⟩
      · exact (ih.2 e hmem) (List.mem_cons_self e seen)
      · intro k hk
        rcases List.mem_cons.mp hk with rfl | hk'
        · exact he
        · exact fun hkseen => (ih.2 k hk') (List.mem_cons_of_mem _ hkseen)

/-! ### Claims -/

/-- C1: for the boolean dialect, dataset inferred as `processes`, free
text "find cmd.exe with port 4444", no structured filters and the default
`AND` operator, against a field map containing `dst.port.number` and
`tgt.process.displayName`, the expression list is
[event-type filter, port filter (4444), process filter ("cmd.exe")] and
the query is the claimed string. -/
theorem claim_C1 :
    buildS1Query schemaC1 Option.none Option.none
      (some "find cmd.exe with port 4444") "AND" =
    Except.ok
      ("meta.event.name in ('PROCESSCREATION') AND dst.port.number = 4444 AND tgt.process.displayName in:anycase ('cmd.exe')",
       { dataset := some "processes"
         dataset_display_name := Option.none
         boolean_operator := "AND"
         inferred_conditions :=
           [.eventFilter "processes" ["PROCESSCREATION"],
            .port 4444 "dst.port.number",
            .processName ["cmd.exe"] "tgt.process.displayName"]
         dataset_metadata := some [] }) := rfl

/-- C4 (counterexample): the pipeline dialect's extraction engine does not
deduplicate — the same md5 digest twice yields the same expression twice. -/
theorem claim_C4_counterexample :
    (cortexExtractNL twiceMd5Text cortexMd5FieldMap).1 =
      ["action_file_md5 = 'aaaaaaaaaaaaaaaaaaaaaaaaaaaaaaaa'",
       "action_file_md5 = 'aaaaaaaaaaaaaaaaaaaaaaaaaaaaaaaa'"] ∧
    ¬ ((cortexExtractNL twiceMd5Text cortexMd5FieldMap).1).Nodup :=
  ⟨rfl, by decide⟩

/-- C4 (amended): in the boolean dialect the deduplication of the final
expression list keeps exactly the first occurrence of each rendered
string (`_deduplicate` coincides with the keep-first-occurrence
specification), so the extraction engine never emits the same rendered
expression twice. -/
theorem claim_C4_amended :
    (∀ l, s1Deduplicate l = keepFirsts l) ∧
    ∀ (text : String) (fields : List (String × S1FieldMeta)),
      ((s1ExpressionsFromIntent text fields).1).Nodup := by
  constructor
  · intro l
    show dedupAux l [] = keepFirsts l
    rw [dedupAux_eq_keepFirsts]
    congr 1
    refine List.filter_eq_self.mpr ?_
    intro a _
    simp
  · intro text fields
    show ((dedupAux _ []).map (·.1)).Nodup
    exact (dedupAux_keys_nodup _ []).1

/-- C9 (code evaluated at the failing input): the pipeline dialect's value
formatter renders the boolean value `true` as `"True"` (the Python
numeric branch catches booleans, as `bool` is an `int` subclass, and
`str(True)` is `"True"`), not the XQL keyword `"true"`; likewise for
`false`. -/
theorem claim_C9 :
    cortexFormatValue (.bool true) = "True" ∧
    cortexFormatValue (.bool false) = "False" ∧
    ("True" : String) ≠ "true" ∧ ("False" : String) ≠ "false" :=
  ⟨rfl, rfl, by decide, by decide⟩

/-- C6: `_quote` doubles literal backslashes before escaping single
quotes and wraps in single quotes — it coincides with the per-character
escaping the spec describes on every string, and on `C:\Windows\System32`
yields `'C:\\Windows\\System32'`. -/
theorem claim_C6 :
    (∀ s, s1Quote s = s1QuoteSpec s) ∧
    s1Quote "C:\\Windows\\System32" = "'C:\\\\Windows\\\\System32'" :=
  ⟨s1Quote_eq_spec, rfl⟩

/-- C5 (counterexample): the S1 dataset resolver `infer_dataset` does not
fail on an unresolvable requested dataset — requested "bogus" (no alias,
no membership, no prefix) silently falls back to the default dataset. -/
theorem claim_C5_counterexample :
    inferDataset (some "bogus") Option.none schemaProcessesOnly =
      some "processes" := rfl

/-- C5 (amended): for the CBC search-type resolver, a requested name whose
normalized form is not an alias-table entry, not a known key and not a
prefix of any known key fails with the unknown-search-type error carrying
the full list of valid keys — no silent default.  (The S1 `infer_dataset`
resolver instead falls back silently, see the counterexample.) -/
theorem claim_C5_amended (n : String) (available : List String)
    (hne : n ≠ "")
    (halias : ∀ p ∈ cbcCandidates, p.1 ≠ pyReplace (pyLower (pyStrip n)) " " "_")
    (hmem : pyReplace (pyLower (pyStrip n)) " " "_" ∉ available)
    (hpre : ∀ c ∈ available,
      strStartsWith c (pyReplace (pyLower (pyStrip n)) " " "_") = false) :
    normaliseSearchType (some n) available =
      Except.error (.unknownSearchType n available) := by
  unfold normaliseSearchType
  have hfind : cbcCandidates.find?
      (·.1 = pyReplace (pyLower (pyStrip n)) " " "_") = Option.none := by
    apply List.find?_eq_none.mpr
    intro p hp
    simpa using halias p hp
  simp only [if_neg hne, hfind, Option.map_none', Option.getD_none]
  rw [if_neg hmem]
  have hfind2 : available.find?
      (fun c => strStartsWith c (pyReplace (pyLower (pyStrip n)) " " "_")) =
      Option.none := by
    apply List.find?_eq_none.mpr
    intro c hc
    simp [hpre c hc]
  rw [hfind2]

/-- C5 (witness). -/
theorem claim_C5_witness :
    normaliseSearchType (some "bogus")
      ["process_search", "binary_search", "alert_search",
       "threat_report_search"] =
    Except.error (.unknownSearchType "bogus"
      ["process_search", "binary_search", "alert_search",
       "threat_report_search"]) :=
  claim_C5_amended "bogus"
    ["process_search", "binary_search", "alert_search", "threat_report_search"]
    (by decide) (by decide) (by decide) (by decide)

/-- C7: for the pipeline dialect the build never fails on a limit; the
effective limit is the dialect default (100) when the requested limit is
absent and otherwise the requested value clamped into [1, 10000] — the
clamp leaves in-range values unchanged, raises low values to 1 and lowers
high values to 10000. -/
theorem claim_C7 :
    (buildCortexQuery cortexSchemaC7 "xdr_data" Option.none Option.none
        Option.none Option.none Option.none =
      Except.ok ("dataset = xdr_data\n| limit 100",
        { dataset := "xdr_data", normalisation := [], recognised := [],
          limit := 100, fields := Option.none })) ∧
    (∀ n : Int,
      buildCortexQuery cortexSchemaC7 "xdr_data" Option.none Option.none
          Option.none Option.none (some n) =
        Except.ok ("dataset = xdr_data\n| limit " ++
            pyIntStr (min (max n 1) 10000),
          { dataset := "xdr_data", normalisation := [], recognised := [],
            limit := min (max n 1) 10000, fields := Option.none })) ∧
    (∀ n : Int, 1 ≤ n → n ≤ 10000 → min (max n 1) 10000 = n) ∧
    (∀ n : Int, n < 1 → min (max n 1) 10000 = 1) ∧
    (∀ n : Int, 10000 < n → min (max n 1) 10000 = 10000) := by
  refine ⟨rfl, fun n => rfl, fun n h1 h2 => ?_, fun n h => ?_, fun n h => ?_⟩
  · rw [max_eq_left h1, min_eq_left h2]
  · rw [max_eq_right (le_of_lt h), min_eq_left (by norm_num)]
  · rw [min_eq_right (le_trans (le_of_lt h) (le_max_left n 1))]

/-- C7 (witness). -/
theorem claim_C7_witness :
    (buildCortexQuery cortexSchemaC7 "xdr_data" Option.none Option.none
        Option.none Option.none (some 0) =
      Except.ok ("dataset = xdr_data\n| limit " ++
          pyIntStr (min (max 0 1) 10000),
        { dataset := "xdr_data", normalisation := [], recognised := [],
          limit := min (max 0 1) 10000, fields := Option.none })) ∧
    min (max (0 : Int) 1) 10000 = 1 ∧
    min (max (-5 : Int) 1) 10000 = 1 ∧
    min (max (20000 : Int) 1) 10000 = 10000 ∧
    min (max (250 : Int) 1) 10000 = 250 :=
  ⟨claim_C7.2.1 0,
   claim_C7.2.2.2.1 0 (by norm_num),
   claim_C7.2.2.2.1 (-5) (by norm_num),
   claim_C7.2.2.2.2 20000 (by norm_num),
   claim_C7.2.2.1 250 (by norm_num) (by norm_num)⟩

/-- C8: the boolean dialect's combination step parenthesizes the joined
query exactly when the operator is `OR` and more than one expression is
present (and wrapping always changes the string), with the concrete
two-expression `OR`/`AND` builds and single-expression builds shown. -/
theorem claim_C8 :
    (∀ (op : String) (exprs : List String),
      (op = "OR" ∧ 1 < exprs.length →
        s1CombineQuery op exprs =
          "(" ++ s1JoinExpressions op exprs ++ ")") ∧
      (¬(op = "OR" ∧ 1 < exprs.length) →
        s1CombineQuery op exprs = s1JoinExpressions op exprs) ∧
      s1JoinExpressions op exprs ≠
        "(" ++ s1JoinExpressions op exprs ++ ")") ∧
    ((buildS1Query schemaEmptyS1 Option.none
        (some [.raw "a = 1", .raw "b = 2"]) Option.none "OR").map (·.1) =
      Except.ok "(a = 1 OR b = 2)") ∧
    ((buildS1Query schemaEmptyS1 Option.none
        (some [.raw "a = 1", .raw "b = 2"]) Option.none "AND").map (·.1) =
      Except.ok "a = 1 AND b = 2") ∧
    ((buildS1Query schemaEmptyS1 Option.none
        (some [.raw "a = 1"]) Option.none "OR").map (·.1) =
      Except.ok "a = 1") ∧
    ((buildS1Query schemaEmptyS1 Option.none
        (some [.raw "a = 1"]) Option.none "AND").map (·.1) =
      Except.ok "a = 1") := by
  refine ⟨fun op exprs => ⟨?_, ?_, ?_⟩, rfl, rfl, rfl, rfl⟩
  · rintro ⟨hop, hlen⟩
    have hne : exprs.isEmpty = false := by
      cases exprs with
      | nil => simp at hlen
      | cons e rest => simp
    simp [s1CombineQuery, hne, hop, hlen]
  · intro h
    rcases exprs with _ | ⟨e, rest⟩
    · rfl
    · by_cases hop : op = "OR"
      · have hlen : ¬ (1 < (e :: rest).length) := fun hl => h ⟨hop, hl⟩
        have hrest : rest = [] := by
          cases rest with
          | nil => rfl
          | cons a t => exact absurd (by simp) hlen
        subst hrest
        simp [s1CombineQuery]
      · simp [s1CombineQuery, hop]
  · intro h
    have hlen := congrArg String.length h
    rw [String.length_append, String.length_append] at hlen
    have h1 : ("(" : String).length = 1 := rfl
    have h2 : (")" : String).length = 1 := rfl
    omega

/-- C8 (witness). -/
theorem claim_C8_witness :
    s1CombineQuery "OR" ["a = 1", "b = 2"] =
      "(" ++ s1JoinExpressions "OR" ["a = 1", "b = 2"] ++ ")" ∧
    s1CombineQuery "AND" ["a = 1", "b = 2"] =
      s1JoinExpressions "AND" ["a = 1", "b = 2"] ∧
    s1CombineQuery "OR" ["a = 1"] = s1JoinExpressions "OR" ["a = 1"] :=
  ⟨(claim_C8.1 "OR" ["a = 1", "b = 2"]).1 ⟨rfl, by norm_num⟩,
   (claim_C8.1 "AND" ["a = 1", "b = 2"]).2.1 (by decide),
   (claim_C8.1 "OR" ["a = 1"]).2.1 (by decide)⟩

/-- Inversion for the sanitise-then-pair success paths of
`buildFilterExpression`. -/
theorem sanitiseMap_ok {x : String} {meta : ExprMeta} {e : String} {m : ExprMeta}
    (h : (s1SanitiseExpression x).map (fun s => (s, meta)) = Except.ok (e, m)) :
    e = x ∧ s1HasUnsafeChars x = false := by
  unfold s1SanitiseExpression at h
  by_cases hx : s1HasUnsafeChars x = true
  · rw [if_pos hx] at h
    simp [Except.map] at h
  · rw [if_neg hx] at h
    simp only [Except.map, Except.ok.injEq, Prod.mk.injEq] at h
    exact ⟨h.1.symm, by simpa using hx⟩

/-- C2 (counterexample): a structured filter whose operator does not
normalize does not fail the build; the caller-supplied operator appears
verbatim in the emitted query. -/
theorem claim_C2_counterexample :
    s1NormalizeOperator "bogusop" (buildOperatorMap schemaOneField) =
      Except.error (.unknownOperator "bogusop") ∧
    buildS1Query schemaOneField Option.none
      (some [.structured (some (.str "f")) (some (.str "bogusop"))
        (some (.str "v"))]) Option.none "AND" =
    Except.ok
      ("f bogusop 'v'",
       { dataset := Option.none
         dataset_display_name := Option.none
         boolean_operator := "AND"
         inferred_conditions := [.filt "f" "bogusop" (.str "v")]
         dataset_metadata := Option.none }) ∧
    containsSub "f bogusop 'v'" "bogusop" = true :=
  ⟨rfl, rfl, by decide⟩

/-- C2 (amended): when a structured filter's operator fails to normalize,
`_build_filter_expression` catches the error and uses the operator as-is:
for any string-valued filter on a known non-numeric field (whose rendered
expression passes the unsafe-character check), the build succeeds and the
expression carries the caller-supplied operator verbatim. -/
theorem claim_C2_amended (fields : List (String × S1FieldMeta))
    (operatorMap : List (String × String)) (field op v : String)
    (entry : String × S1FieldMeta)
    (hfind : fields.find? (·.1 = field) = some entry)
    (hop : s1NormalizeOperator op operatorMap =
      Except.error (.unknownOperator op))
    (hopne : op ≠ "")
    (hnum : pyLower entry.2.data_type ≠ "numeric")
    (hint2 : pyLower entry.2.data_type ≠ "integer")
    (hsafe : s1HasUnsafeChars (field ++ " " ++ op ++ " " ++ s1Quote v) = false) :
    buildFilterExpression
      (.structured (some (.str field)) (some (.str op)) (some (.str v)))
      fields operatorMap =
    Except.ok (field ++ " " ++ op ++ " " ++ s1Quote v,
      .filt field op (.str v)) := by
  unfold buildFilterExpression
  dsimp only
  rw [hfind]
  simp only [Option.isNone_some, Bool.false_eq_true, if_false, Option.getD_some,
    Option.map_some', hop, if_neg hopne]
  rw [if_neg (by simp [hnum, hint2])]
  unfold s1SanitiseExpression
  rw [if_neg (by simp [hsafe])]
  rfl

/-- C2 (witness). -/
theorem claim_C2_witness :
    buildFilterExpression
      (.structured (some (.str "f")) (some (.str "bogusop"))
        (some (.str "v"))) [("f", {})] [] =
    Except.ok ("f" ++ " " ++ "bogusop" ++ " " ++ s1Quote "v",
      .filt "f" "bogusop" (.str "v")) :=
  claim_C2_amended [("f", {})] [] "f" "bogusop" "v" ("f", {})
    rfl rfl (by decide) (by decide) (by decide) (by decide)

/-- C10: every expression the boolean dialect's filter expression builder
returns — raw pass-through or structured — has passed the
unsafe-character check: a success never contains `;`, `|` or a newline,
and a structured filter whose quoted value would inject one of them fails
with the unsafe-expression error. -/
theorem claim_C10 :
    (∀ (item : S1Filter) (fields : List (String × S1FieldMeta))
        (operatorMap : List (String × String)) (e : String) (m : ExprMeta),
      buildFilterExpression item fields operatorMap = Except.ok (e, m) →
      s1HasUnsafeChars e = false) ∧
    buildFilterExpression
      (.structured (some (.str "f")) (some (.str "="))
        (some (.str "x; DROP TABLE"))) [("f", {})] [("=", "=")] =
      Except.error .unsafeExpression := by
  constructor
  · intro item fields operatorMap e m h
    cases item with
    | raw s =>
      unfold buildFilterExpression at h
      obtain ⟨he, hx⟩ := sanitiseMap_ok h
      rw [he]; exact hx
    | other =>
      unfold buildFilterExpression at h
      cases h
    | structured fv ov vv =>
      unfold buildFilterExpression at h
      dsimp only at h
      repeat' split at h
      all_goals
        first
        | cases h
        | · obtain ⟨he, hx⟩ := sanitiseMap_ok h
            rw [he]; exact hx
  · rfl

/-- C10 (witness). -/
theorem claim_C10_witness : s1HasUnsafeChars "a = 1" = false :=
  claim_C10.1 (.raw "a = 1") [] [] "a = 1" .user rfl

/-- `_build_filter_expression` never raises the two insufficient-input
errors of `build_s1_query`. -/
theorem bfe_error_ne (item : S1Filter) (fields : List (String × S1FieldMeta))
    (operatorMap : List (String × String)) (e : S1Err)
    (h : buildFilterExpression item fields operatorMap = Except.error e) :
    e ≠ S1Err.insufficientInput ∧ e ≠ S1Err.noExpressions := by
  constructor <;> intro he <;> subst he <;>
  · cases item <;> unfold buildFilterExpression at h <;> dsimp only at h <;>
      repeat' split at h
    all_goals try (unfold s1SanitiseExpression at h; split at h)
    all_goals simp [Except.map] at h

/-- Neither does the sequential filter loop. -/
theorem buildAllFilters_error_ne (fields : List (String × S1FieldMeta))
    (operatorMap : List (String × String)) :
    ∀ (l : List S1Filter) (e : S1Err),
      buildAllFilters fields operatorMap l = Except.error e →
      e ≠ S1Err.insufficientInput ∧ e ≠ S1Err.noExpressions
  | [], e => by intro h; simp [buildAllFilters] at h
  | item :: rest, e => by
    intro h
    unfold buildAllFilters at h
    split at h
    · rename_i e' he'
      injection h with h2
      subst h2
      exact bfe_error_ne item fields operatorMap e' he'
    · rename_i pair hpair
      split at h
      · rename_i e' he'
        injection h with h2
        subst h2
        exact buildAllFilters_error_ne fields operatorMap rest e' he'
      · cases h

/-- C3 (counterexample): free text that extracts nothing, with no filters,
no explicit dataset and no dataset inferable from the text, does NOT fail
when the defaulted dataset carries mandatory event filters — the build
returns the bare event-type query. -/
theorem claim_C3_counterexample :
    buildS1Query schemaProcessesOnly Option.none Option.none (some "xyzzy")
      "AND" =
    Except.ok
      ("meta.event.name in ('PROCESSCREATION')",
       { dataset := some "processes"
         dataset_display_name := Option.none
         boolean_operator := "AND"
         inferred_conditions := [.eventFilter "processes" ["PROCESSCREATION"]]
         dataset_metadata := some [] }) := rfl

/-- C3 (amended): given a valid boolean operator, the boolean dialect's
build fails with an insufficient-input error (`insufficientInput` or
`noExpressions`) in exactly two situations: (1) neither structured
filters nor non-blank free text are supplied; (2) free text is supplied
but extraction yields zero expressions, no structured filters exist, no
dataset was explicitly requested or inferred from the free text, AND the
resolved dataset has no mandatory event-type filters. -/

theorem claim_C3_amended (schema : S1Schema) (dataset : Option String)
    (filters : Option (List S1Filter)) (intent : Option String) (op : String)
    (hop : pyUpper (pyStrip op) = "AND" ∨ pyUpper (pyStrip op) = "OR") :
    (buildS1Query schema dataset filters intent op =
        Except.error S1Err.insufficientInput ∨
     buildS1Query schema dataset filters intent op =
        Except.error S1Err.noExpressions) ↔
    s1InsufficientCond schema dataset filters intent := by
  have hguard :
      (!(pyUpper (pyStrip op) = "AND" || pyUpper (pyStrip op) = "OR")) = false := by
    rcases hop with h | h <;> simp [h]
  unfold buildS1Query
  simp only [hguard, Bool.false_eq_true, if_false]
  by_cases hf : filters.getD [] = []
  · rw [hf]
    simp only [buildAllFilters, List.map_nil, List.nil_append, List.isEmpty_nil,
      Bool.not_true, Bool.not_false, Bool.true_and, Bool.and_true]
    cases hvi : s1HasValidIntent intent with
    | false =>
      simp only [hvi, Bool.not_false, if_true, Bool.true_and]
      simp [s1InsufficientCond, hf, hvi]
    | true =>
      simp only [hvi, Bool.not_true, if_false, Bool.true_and, Bool.false_and]
      cases intent with
      | none => exact absurd hvi (by decide)
      | some t =>
        have ht : t ≠ "" := by
          intro h0
          subst h0
          exact absurd hvi (by decide)
        dsimp only
        rw [if_pos ht]
        simp only [Bool.not_not]
        cases hx : (s1ExpressionsFromIntent t
            (collectFields schema (inferDataset dataset (some t) schema))).1 with
        | nil =>
          simp only [List.isEmpty_nil, Bool.true_and]
          cases hflag : (s1HasExplicitDataset dataset ||
              s1InferredFromIntent (some t) (inferDataset dataset (some t) schema) ||
              s1DatasetHasEventFilters (inferDataset dataset (some t) schema)) with
          | false =>
            obtain ⟨⟨h1, h2⟩, h3⟩ :
                (s1HasExplicitDataset dataset = false ∧
                 s1InferredFromIntent (some t) (inferDataset dataset (some t) schema) = false) ∧
                s1DatasetHasEventFilters (inferDataset dataset (some t) schema) = false := by
              simpa using hflag
            simp [s1InsufficientCond, hf, hvi, hx, h1, h2, h3]
          | true =>
            simp only [hflag, Bool.not_true, Bool.and_false, Bool.false_eq_true, if_false]
            rcases (by simpa using hflag :
                (s1HasExplicitDataset dataset = true ∨
                 s1InferredFromIntent (some t) (inferDataset dataset (some t) schema) = true) ∨
                s1DatasetHasEventFilters (inferDataset dataset (some t) schema) = true) with
              (h1 | h2) | h3
            · simp [s1InsufficientCond, hf, hvi, hx, h1]
            · simp [s1InsufficientCond, hf, hvi, hx, h2]
            · simp [s1InsufficientCond, hf, hvi, hx, h3]
        | cons e1 es =>
          simp only [List.isEmpty_cons, Bool.not_false, Bool.false_and,
            Bool.false_eq_true, if_false]
          simp [s1InsufficientCond, hf, hvi, hx]
  · cases hba : buildAllFilters (collectFields schema (inferDataset dataset intent schema))
        (buildOperatorMap schema) (filters.getD []) with
    | error e =>
      have hne := buildAllFilters_error_ne _ _ _ _ hba
      dsimp only
      simp [s1InsufficientCond, hf, hne.1, hne.2]
    | ok pairs =>
      have hemp : (filters.getD []).isEmpty = false := by
        cases hlist : filters.getD [] with
        | nil => exact absurd hlist hf
        | cons a l => simp
      dsimp only
      simp only [hemp, Bool.not_false, Bool.and_false, Bool.false_and,
        Bool.false_eq_true, if_false]
      simp [s1InsufficientCond, hf]

/-- C3 (witness). -/
theorem claim_C3_witness :
    (buildS1Query schemaEmptyS1 Option.none Option.none Option.none "AND" =
        Except.error S1Err.insufficientInput ∨
     buildS1Query schemaEmptyS1 Option.none Option.none Option.none "AND" =
        Except.error S1Err.noExpressions) ↔
    s1InsufficientCond schemaEmptyS1 Option.none Option.none Option.none :=
  claim_C3_amended schemaEmptyS1 Option.none Option.none Option.none "AND"
    (Or.inl rfl)
